import Mathlib

/-!
Verification of the signalbot message-dispatch core.

This file gives a shallow embedding of the Python sources
(`signalbot/message.py`, `signalbot/types.py`, `signalbot/mapped_model.py`,
`signalbot/bot.py`, `signalbot/v2/router.py`, `signalbot/v2/utils.py`)
and proves or refutes the spec's claims about them.

JSON values decoded by `json.loads` are modelled by the inductive `J`;
Python's `None` is `J.null` (note `dict.get` returns `None` both for a
missing key and for a key bound to `null`, which the model mirrors with
`pyGet`).  Fallible Python code is modelled with `Except PyErr`, where
`PyErr` distinguishes the exception classes the claims care about.
-/

namespace Signalbot

/-- A decoded JSON value (the result of Python's `json.loads`). -/
inductive J where
  | null
  | bool (b : Bool)
  | num (n : Int)
  | str (s : String)
  | arr (xs : List J)
  | obj (kvs : List (String × J))
deriving Repr

/-- Exception classes relevant to the claims.  `unknownMessageFormat` is the
parser's structured error (`UnknownMessageFormatError`); `signalBotError` is
`SignalBotError` ("Cannot resolve receiver."); `validationError` is pydantic's
`ValidationError`; the rest are Python builtins. -/
inductive PyErr where
  | unknownMessageFormat
  | valueError
  | typeError
  | indexError
  | attributeError
  | signalBotError
  | validationError
deriving DecidableEq, Repr

/-- First binding of a key in a JSON object, like a Python dict lookup
(Python dicts have unique keys; on a duplicated key this takes the first,
which also matches the `defaultdict(list)` "first inserted wins" policy). -/
def jLookup : List (String × J) → String → Option J
  | [], _ => none
  | (k, v) :: rest, key => if k = key then some v else jLookup rest key

/-- Python `d.get(k)`: `None` (= `J.null`) when missing. -/
def pyGet (d : List (String × J)) (k : String) : J :=
  (jLookup d k).getD J.null

/-- Python truthiness of a JSON value (`bool(x)`). -/
def jTruthy : J → Bool
  | .null => false
  | .bool b => b
  | .num n => n != 0
  | .str s => s ≠ ""
  | .arr xs => !xs.isEmpty
  | .obj kvs => !kvs.isEmpty

mutual
/-- Nesting depth of a JSON value (used only to seed recursion fuel). -/
def jDepth : J → Nat
  | .null => 1
  | .bool _ => 1
  | .num _ => 1
  | .str _ => 1
  | .arr xs => jDepthList xs + 1
  | .obj kvs => jDepthObj kvs + 1

def jDepthList : List J → Nat
  | [] => 0
  | x :: xs => max (jDepth x) (jDepthList xs)

def jDepthObj : List (String × J) → Nat
  | [] => 0
  | kv :: rest => max (jDepth kv.2) (jDepthObj rest)
end

theorem jLookup_sizeOf {l : List (String × J)} {key : String} {v : J}
    (h : jLookup l key = some v) : sizeOf v < sizeOf l := by
  induction l with
  | nil => simp [jLookup] at h
  | cons kv rest ih =>
    obtain ⟨k, w⟩ := kv
    by_cases hk : k = key
    · simp [jLookup, hk] at h
      subst h
      simp
      omega
    · simp [jLookup, hk] at h
      have := ih h
      simp
      omega

theorem pyGet_sizeOf {d : List (String × J)} {k : String}
    (h : jTruthy (pyGet d k) = true) : sizeOf (pyGet d k) < 1 + sizeOf d := by
  unfold pyGet at *
  cases hl : jLookup d k with
  | none => rw [hl] at h; simp [Option.getD, jTruthy] at h
  | some v =>
    have := jLookup_sizeOf hl
    simp [Option.getD]
    omega

/-! ### Python `int(s, base)` string parsing

`int()` strips whitespace, allows one sign, for base 16 an optional `0x`
prefix, and single underscores between digits.  Only the success/failure
and the magnitude-zero test matter to the claims. -/

/-- ASCII whitespace stripped by Python's `int()`. -/
def isPyWs (c : Char) : Bool :=
  c = ' ' || c = '\t' || c = '\n' || c = '\x0d' || c = '\x0b' || c = '\x0c'

def decDigitVal (c : Char) : Option Nat :=
  if '0' ≤ c ∧ c ≤ '9' then some (c.toNat - '0'.toNat) else none

def hexDigitVal (c : Char) : Option Nat :=
  if '0' ≤ c ∧ c ≤ '9' then some (c.toNat - '0'.toNat)
  else if 'a' ≤ c ∧ c ≤ 'f' then some (c.toNat - 'a'.toNat + 10)
  else if 'A' ≤ c ∧ c ≤ 'F' then some (c.toNat - 'A'.toNat + 10)
  else none

/-- Digit run after the first digit: single underscores only between digits. -/
def pyDigitsLoop (val : Char → Option Nat) (base : Nat) : List Char → Nat → Option Nat
  | [], acc => some acc
  | '_' :: c :: rest, acc =>
    match val c with
    | some v => pyDigitsLoop val base rest (acc * base + v)
    | none => none
  | '_' :: [], _ => none
  | c :: rest, acc =>
    match val c with
    | some v => pyDigitsLoop val base rest (acc * base + v)
    | none => none

/-- A nonempty digit run (must start with a digit). -/
def pyDigits (val : Char → Option Nat) (base : Nat) : List Char → Option Nat
  | c :: rest => (val c).bind (pyDigitsLoop val base rest)
  | [] => none

/-- Strip leading and trailing characters satisfying `p` (Python `str.strip`). -/
def stripEnds (p : Char → Bool) (cs : List Char) : List Char :=
  ((cs.dropWhile p).reverse.dropWhile p).reverse

/-- Magnitude parsed by Python `int(s, base)` for base 10 or 16 (`none` on
`ValueError`).  The sign does not matter to any claim, so only the magnitude
is returned. -/
def pyIntMag (base : Nat) (cs : List Char) : Option Nat :=
  let cs := stripEnds isPyWs cs
  let cs := match cs with
    | '+' :: r => r
    | '-' :: r => r
    | r => r
  let cs := if base = 16 then
      match cs with
      | '0' :: 'x' :: r | '0' :: 'X' :: r =>
        match r with
        | '_' :: r2 => r2
        | _ => r
      | r => r
    else cs
  pyDigits (if base = 16 then hexDigitVal else decDigitVal) base cs

/-- Signed value parsed by Python `int(s, base)` (`none` on `ValueError`). -/
def pyIntVal (base : Nat) (cs : List Char) : Option Int :=
  let neg := match stripEnds isPyWs cs with
    | '-' :: _ => true
    | _ => false
  (pyIntMag base cs).map fun m => if neg then -(m : Int) else (m : Int)

/-- Python `int(s)` (base 10) on a string. -/
def pyIntDec (s : String) : Option Int := pyIntVal 10 s.data

/-- Python `int(s, 16)` on a char list, magnitude only (the UUID check only
needs success/failure). -/
def pyIntHex (cs : List Char) : Option Nat := pyIntMag 16 cs

/-- Python `int(x)` on a decoded JSON value: ints pass through, booleans
coerce to 0/1, strings parse in base 10 (`ValueError` on failure), anything
else (`None`, lists, dicts) is a `TypeError`. -/
def jToInt : J → Except PyErr Int
  | .num n => .ok n
  | .bool b => .ok (if b then 1 else 0)
  | .str s =>
    match pyIntDec s with
    | some n => .ok n
    | none => .error .valueError
  | _ => .error .typeError

/-! ### Domain model (`signalbot/types.py`)

The pydantic models, as plain Lean structures.  `Optional[...] = None`
fields become `Option`; `server_received_timestamp : int = Field(default=None)`
is an `int` field whose default is `None`, hence `Option Int` here even
though a present `null` fails validation. -/

structure UserM where
  name : Option String
  number : Option String
  uuid : Option String
deriving DecidableEq, Repr

inductive AttachmentM where
  | mk (content_type : Option String) (filename : Option String) (id : Option String)
       (size : Option Int) (width : Option Int) (height : Option Int)
       (caption : Option String) (upload_timestamp : Option Int)
       (thumbnail : Option AttachmentM)
deriving Repr

structure MentionM where
  start : Int
  length : Int
  target : UserM
deriving Repr

structure QuoteM where
  source : UserM
  id : Int
  text : Option String
  attachments : List AttachmentM
deriving Repr

structure ReactionM where
  emoji : Option String
  target : UserM
  timestamp : Option Int
  is_remove : Option Bool
deriving Repr

structure GroupInfoM where
  id : String
  name : Option String
  revision : Int
  type : Option String
deriving DecidableEq, Repr

structure RemoteDeleteM where
  timestamp : Int
deriving DecidableEq, Repr

structure DataMessageM where
  timestamp : Option Int
  message : Option String
  expires_in_seconds : Int
  view_once : Bool
  attachments : List AttachmentM
  reaction : Option ReactionM
  quote : Option QuoteM
  group_info : Option GroupInfoM
  mentions : List MentionM
  remote_delete : Option RemoteDeleteM
deriving Repr

structure ReceiptMessageM where
  whenAt : Int
  is_delivery : Bool
  is_read : Bool
  is_viewed : Bool
  timestamps : List Int
deriving DecidableEq, Repr

structure TypingMessageM where
  action : String
  timestamp : Int
  group_id : Option String
deriving DecidableEq, Repr

structure MessageM where
  source : String
  user : UserM
  sourceDevice : Int
  timestamp : Int
  server_received_timestamp : Option Int
  server_delivered_timestamp : Option Int
  data : Option DataMessageM
  sync : Option DataMessageM
  receipt : Option ReceiptMessageM
  typing : Option TypingMessageM
deriving Repr

inductive MessageTypeM where
  | sync | data | receipt | typing | unknown
deriving DecidableEq, Repr

/-- `Message.type()` from `types.py`: first non-`None` payload wins, in the
fixed order data, sync, receipt, typing; otherwise `UNKNOWN`. -/
def msgType (m : MessageM) : MessageTypeM :=
  if m.data.isSome then .data
  else if m.sync.isSome then .sync
  else if m.receipt.isSome then .receipt
  else if m.typing.isSome then .typing
  else .unknown

/-- `Message.is_group()` from `types.py`. -/
def MessageM.is_group (m : MessageM) : Bool :=
  m.data.isSome && (match m.data with
    | some dm => dm.group_info.isSome
    | none => false)

/-- `Message.is_private()` from `types.py`: the negation of `is_group`. -/
def MessageM.is_private (m : MessageM) : Bool := !m.is_group

/-! ### Pydantic field validation helpers

Scalar coercion in pydantic v2 lax mode: `str` accepts only strings,
`int` accepts ints and integer-looking strings (never bools), `bool`
accepts bools, 0/1 and the usual true/false words. -/

def vStr : J → Except PyErr String
  | .str s => .ok s
  | _ => .error .validationError

def vOptStr : J → Except PyErr (Option String)
  | .null => .ok none
  | .str s => .ok (some s)
  | _ => .error .validationError

/-- Integer-string coercion used by pydantic (optional sign, decimal digits). -/
def pydStrToInt (s : String) : Option Int :=
  let digitsOf : List Char → Option Int := fun cs =>
    if cs ≠ [] ∧ cs.all fun c => (decDigitVal c).isSome then
      some (cs.foldl (fun acc c => acc * 10 + ((decDigitVal c).getD 0 : Int)) 0)
    else none
  match s.data with
  | '+' :: rest => digitsOf rest
  | '-' :: rest => (digitsOf rest).map Neg.neg
  | rest => digitsOf rest

def vInt : J → Except PyErr Int
  | .num n => .ok n
  | .str s =>
    match pydStrToInt s with
    | some n => .ok n
    | none => .error .validationError
  | _ => .error .validationError

def vOptInt : J → Except PyErr (Option Int)
  | .null => .ok none
  | v => (vInt v).map some

def vBool : J → Except PyErr Bool
  | .bool b => .ok b
  | .num 0 => .ok false
  | .num 1 => .ok true
  | .str s =>
    if ["true", "t", "yes", "y", "on", "1"].contains s.toLower then .ok true
    else if ["false", "f", "no", "n", "off", "0"].contains s.toLower then .ok false
    else .error .validationError
  | _ => .error .validationError

def vOptBool : J → Except PyErr (Option Bool)
  | .null => .ok none
  | v => (vBool v).map some

/-! ### Legacy parser (`signalbot/message.py`)

`message_from_json` and its helpers.  The `Message` dataclass there is a
different, older shape than `types.Message`; its `Attachment` however IS
`types.Attachment` (imported from `.types`), so `_parse_attachment`
constructs a pydantic model and its keyword arguments are validated. -/

structure UserV1 where
  name : J
  number : J
  uuid : J
deriving Repr

/-- `message.py` `Reaction` dataclass (plain dataclass: no validation). -/
structure ReactionV1 where
  emoji : J
  target : UserV1
  timestamp : J
  is_remove : J
deriving Repr

/-- `message.py` `GroupInfo` dataclass (plain dataclass). -/
structure GroupInfoV1 where
  id : J
  name : J
  revision : Int
  type : J
deriving Repr

inductive MessageTypeV1 where
  | syncMessage | dataMessage
deriving DecidableEq, Repr

/-- `message.py` `Message` dataclass.  `group` holds the raw `groupId` value
(`J.null` when absent); note there is NO `group_info` attribute. -/
structure MessageV1 where
  source : J
  source_number : J
  source_uuid : J
  timestamp : J
  type : MessageTypeV1
  text : J
  attachments : List AttachmentM
  group : J
  reaction : ReactionV1
  mentions : J
  raw_message : J
deriving Repr

/-- `Message.recipient` (message.py): the raw internal group id if the
message has one, else the envelope `source` value. -/
def MessageV1.recipient (m : MessageV1) : J :=
  if jTruthy m.group then m.group else m.source

def MessageV1.is_private (m : MessageV1) : Bool := !jTruthy m.group

def MessageV1.is_group (m : MessageV1) : Bool := jTruthy m.group

/-- `_parse_attachment` with explicit recursion fuel (the thumbnail nesting
depth is bounded by the size of the JSON value, so the fuel-0 branch is
never reached; fuel keeps the definition structurally recursive and hence
kernel-evaluable): numeric fields go through `int()` when truthy (raising
`ValueError` on e.g. `"x"`), then the pydantic `Attachment` constructor
validates the string fields. -/
def parseAttachmentV1F (fuel : Nat) : J → Except PyErr AttachmentM
  | .obj d => do
    let size ← if jTruthy (pyGet d "size") then (jToInt (pyGet d "size")).map some else pure none
    let width ← if jTruthy (pyGet d "width") then (jToInt (pyGet d "width")).map some else pure none
    let height ← if jTruthy (pyGet d "height") then (jToInt (pyGet d "height")).map some else pure none
    let upload ← if jTruthy (pyGet d "uploadTimestamp") then (jToInt (pyGet d "uploadTimestamp")).map some else pure none
    let thumb ← if jTruthy (pyGet d "thumbnail") then
        match fuel with
        | 0 => .error .attributeError
        | f + 1 => (parseAttachmentV1F f (pyGet d "thumbnail")).map some
      else pure none
    let ct ← vOptStr (pyGet d "contentType")
    let fn ← vOptStr (pyGet d "filename")
    let idv ← vOptStr (pyGet d "id")
    let cap ← vOptStr (pyGet d "caption")
    pure (.mk ct fn idv size width height cap upload thumb)
  | _ => .error .attributeError

/-- `_parse_attachment` (message.py:12). -/
def parseAttachmentV1 (j : J) : Except PyErr AttachmentM :=
  parseAttachmentV1F (jDepth j) j

/-- `_parse_attachments` over `message_data.get('attachments', [])`.
Iterating a non-list raises (`TypeError`/`AttributeError`), except that an
empty string or dict iterates zero times. -/
def parseAttachmentsV1 : J → Except PyErr (List AttachmentM)
  | .arr xs => xs.mapM parseAttachmentV1
  | .str s => if s = "" then .ok [] else .error .attributeError
  | .obj d => if d.isEmpty then .ok [] else .error .attributeError
  | _ => .error .typeError

/-- `_parse_message`: `data["message"]`, any failure becomes
`UnknownMessageFormatError`. -/
def parseMessageTextV1 : J → Except PyErr J
  | .obj d =>
    match jLookup d "message" with
    | some v => .ok v
    | none => .error .unknownMessageFormat
  | _ => .error .unknownMessageFormat

/-- `_parse_group_information`: `message["groupInfo"]["groupId"]`, any
failure gives `None`. -/
def parseGroupInformationV1 : J → J
  | .obj d =>
    match jLookup d "groupInfo" with
    | some (.obj g) => pyGet g "groupId"
    | _ => .null
  | _ => .null

/-- `_parse_mentions`: `data["mentions"]` or `[]` when missing. -/
def parseMentionsV1 : J → J
  | .obj d => (jLookup d "mentions").getD (.arr [])
  | _ => .arr []

/-- The `_parse_reaction` at message.py:128 (it shadows the earlier one at
line 49, so `message_from_json` calls THIS one on the whole message dict:
the fields are looked up on the message data, not on a reaction object). -/
def parseReactionV1 : J → Except PyErr ReactionV1
  | .obj d =>
    .ok ⟨pyGet d "emoji",
         ⟨pyGet d "targetAuthor", pyGet d "targetAuthorNumber", pyGet d "targetAuthorUuid"⟩,
         pyGet d "targetSentTimestamp", pyGet d "isRemove"⟩
  | _ => .error .attributeError

/-- `_parse_group_info` (message.py:144): `int(d.get('revision'))` raises
`ValueError` on a non-numeric string and `TypeError` when absent. -/
def parseGroupInfoV1 : J → Except PyErr GroupInfoV1
  | .obj d => do
    let idv := pyGet d "groupId"
    let namev := pyGet d "groupName"
    let rev ← jToInt (pyGet d "revision")
    let tyv := pyGet d "type"
    pure ⟨idv, namev, rev, tyv⟩
  | _ => .error .attributeError

/-- Does one char list start with another? (helper for substring search). -/
def startsWithChars : List Char → List Char → Bool
  | [], _ => true
  | _ :: _, [] => false
  | p :: ps, c :: cs => p = c && startsWithChars ps cs

/-- Substring search on char lists (Python `"pat" in s`). -/
def hasSub (pat : List Char) : List Char → Bool
  | [] => pat.isEmpty
  | c :: rest => startsWithChars pat (c :: rest) || hasSub pat rest

/-- Python `"sentMessage" in x` followed by `x["sentMessage"]`, over the
possible shapes of `envelope["syncMessage"]`. -/
def syncSentLookup : J → Except PyErr J
  | .obj smd =>
    match jLookup smd "sentMessage" with
    | some md => .ok md
    | none => .error .unknownMessageFormat
  | .str s =>
    if hasSub "sentMessage".data s.data then .error .typeError
    else .error .unknownMessageFormat
  | .arr xs =>
    if xs.any (fun x => match x with | .str s => s = "sentMessage" | _ => false) then .error .typeError
    else .error .unknownMessageFormat
  | _ => .error .typeError

/-- `message_data.get('attachments', [])` (message data is a dict whenever
this line is reached, since `_parse_message` raised otherwise). -/
def mdGetAttachments : J → J
  | .obj d => (jLookup d "attachments").getD (.arr [])
  | _ => .arr []

/-- `message_from_json` (message.py:161).  The input is the already-decoded
JSON value; a payload `json.loads` cannot decode raises
`UnknownMessageFormatError` before this point.  Requires `envelope.source`,
`envelope.sourceUuid` and `envelope.timestamp` (else
`UnknownMessageFormatError`); branches on `syncMessage`/`dataMessage` and
raises `UnknownMessageFormatError` when neither is present. -/
def messageFromJson (raw : J) : Except PyErr MessageV1 := do
  let envd ← match raw with
    | .obj r =>
      match jLookup r "envelope" with
      | some (.obj d) => Except.ok d
      | some _ => Except.error PyErr.unknownMessageFormat
      | none => Except.error PyErr.unknownMessageFormat
    | _ => Except.error PyErr.unknownMessageFormat
  let source ← match jLookup envd "source" with
    | some v => Except.ok v
    | none => Except.error PyErr.unknownMessageFormat
  let sourceUuid ← match jLookup envd "sourceUuid" with
    | some v => Except.ok v
    | none => Except.error PyErr.unknownMessageFormat
  let timestamp ← match jLookup envd "timestamp" with
    | some v => Except.ok v
    | none => Except.error PyErr.unknownMessageFormat
  let sourceNumber := pyGet envd "sourceNumber"
  let tyMd ← match jLookup envd "syncMessage" with
    | some sm => (syncSentLookup sm).map fun md => (MessageTypeV1.syncMessage, md)
    | none =>
      match jLookup envd "dataMessage" with
      | some md => Except.ok (MessageTypeV1.dataMessage, md)
      | none => Except.error PyErr.unknownMessageFormat
  let text ← parseMessageTextV1 tyMd.2
  let group := parseGroupInformationV1 tyMd.2
  let reaction ← parseReactionV1 tyMd.2
  let mentions := parseMentionsV1 tyMd.2
  let attachments ← parseAttachmentsV1 (mdGetAttachments tyMd.2)
  pure ⟨source, sourceNumber, sourceUuid, timestamp, tyMd.1, text, attachments, group, reaction, mentions, raw⟩

/-! ### Field-mapping layer (`signalbot/mapped_model.py`) -/

/-- Python dict assignment `d[k] = v`: replace in place, else append. -/
def setKey (d : List (String × J)) (k : String) (v : J) : List (String × J) :=
  if (jLookup d k).isSome then d.map fun kv => if kv.1 = k then (k, v) else kv
  else d ++ [(k, v)]

/-- `extract_mapped`: pop each present raw key into `collected`, then store
`collected` under `field_name` when non-empty. -/
def extractMapped (data : List (String × J)) (fieldName : String)
    (mapping : List (String × String)) : List (String × J) :=
  let collected := mapping.filterMap fun sr => (jLookup data sr.2).map fun v => (sr.1, v)
  let rest := data.filter fun kv => !(mapping.any fun sr => sr.2 = kv.1)
  if collected.isEmpty then rest else setKey rest fieldName (.obj collected)

/-- `flatten_mapped`: replace the nested `field_name` dict by the raw keys
it maps to; everything else passes through. -/
def flattenMapped (nested : List (String × J)) (fieldName : String)
    (mapping : List (String × String)) : List (String × J) :=
  (nested.map fun kv =>
    if kv.1 = fieldName then
      match kv.2 with
      | .obj val => mapping.filterMap fun sr => (jLookup val sr.1).map fun v => (sr.2, v)
      | v => [(kv.1, v)]
    else [kv]).flatten

/-- `Message.user`'s declared mapping. -/
def userMapping : List (String × String) :=
  [("name", "sourceName"), ("number", "sourceNumber"), ("uuid", "sourceUuid")]

/-- The raw-key view of a collected `user` dict (what `flatten_mapped`
emits for the `user` entry). -/
def userMapped (coll : List (String × J)) : List (String × J) :=
  userMapping.filterMap fun sr => (jLookup coll sr.1).map fun v => (sr.2, v)

/-- `Mention.target`'s declared mapping. -/
def mentionMapping : List (String × String) :=
  [("name", "name"), ("number", "number"), ("uuid", "uuid")]

/-- `Quote.source`'s declared mapping. -/
def quoteMapping : List (String × String) :=
  [("name", "author"), ("number", "authorNumber"), ("uuid", "authorUuid")]

/-- `Reaction.target`'s declared mapping. -/
def reactionMapping : List (String × String) :=
  [("name", "targetAuthor"), ("number", "targetAuthorNumber"), ("uuid", "targetAuthorUuid")]

/-! ### Pydantic validation of `types.Message`

Only `Message` itself sets `populate_by_name=True`; its aliased fields
accept the wire alias first, then the field name.  The nested models
(`DataMessage`, `Attachment`, `Reaction`, ...) do NOT set it, so their
aliased fields are only populated from the alias. -/

/-- First present key of a list of accepted keys. -/
def fieldL (d : List (String × J)) : List String → Option J
  | [] => none
  | k :: rest =>
    match jLookup d k with
    | some v => some v
    | none => fieldL d rest

/-- An `Optional[...]` submodel field: absent or `null` is `None`. -/
def vOptField (f : J → Except PyErr α) : Option J → Except PyErr (Option α)
  | none => .ok none
  | some .null => .ok none
  | some v => (f v).map some

def optStrF (d : List (String × J)) (k : String) : Except PyErr (Option String) :=
  match jLookup d k with
  | none => .ok none
  | some v => vOptStr v

def optIntF (d : List (String × J)) (k : String) : Except PyErr (Option Int) :=
  match jLookup d k with
  | none => .ok none
  | some v => vOptInt v

def optBoolF (d : List (String × J)) (k : String) : Except PyErr (Option Bool) :=
  match jLookup d k with
  | none => .ok none
  | some v => vOptBool v

def validateUser : J → Except PyErr UserM
  | .obj d => do
    let n ← optStrF d "name"
    let num ← optStrF d "number"
    let u ← optStrF d "uuid"
    pure ⟨n, num, u⟩
  | _ => .error .validationError

/-- Pydantic `Attachment` validation, with fuel for the recursive
`thumbnail` field (bounded by the JSON size, so fuel 0 is unreachable). -/
def validateAttachmentMF (fuel : Nat) : J → Except PyErr AttachmentM
  | .obj d => do
    let ct ← optStrF d "contentType"
    let fn ← optStrF d "filename"
    let idv ← optStrF d "id"
    let size ← optIntF d "size"
    let width ← optIntF d "width"
    let height ← optIntF d "height"
    let cap ← optStrF d "caption"
    let upload ← optIntF d "uploadTimestamp"
    let thumb ← match jLookup d "thumbnail" with
      | none => pure none
      | some .null => pure none
      | some v =>
        match fuel with
        | 0 => .error .validationError
        | f + 1 => (validateAttachmentMF f v).map some
    pure (.mk ct fn idv size width height cap upload thumb)
  | _ => .error .validationError

def validateAttachmentM (j : J) : Except PyErr AttachmentM :=
  validateAttachmentMF (jDepth j) j

def validateGroupInfoM : J → Except PyErr GroupInfoM
  | .obj d => do
    let idv ← match jLookup d "groupId" with
      | some v => vStr v
      | none => .error .validationError
    let namev ← optStrF d "groupName"
    let rev ← match jLookup d "revision" with
      | some v => vInt v
      | none => .error .validationError
    let tyv ← optStrF d "type"
    pure ⟨idv, namev, rev, tyv⟩
  | _ => .error .validationError

def validateRemoteDeleteM : J → Except PyErr RemoteDeleteM
  | .obj d => do
    let ts ← match jLookup d "timestamp" with
      | some v => vInt v
      | none => .error .validationError
    pure ⟨ts⟩
  | _ => .error .validationError

def validateReactionM : J → Except PyErr ReactionM
  | .obj d0 =>
    let d := extractMapped d0 "target" reactionMapping
    do
    let emoji ← optStrF d "emoji"
    let target ← match jLookup d "target" with
      | some v => validateUser v
      | none => .error .validationError
    let ts ← optIntF d "targetSentTimestamp"
    let ir ← optBoolF d "isRemove"
    pure ⟨emoji, target, ts, ir⟩
  | _ => .error .validationError

def vAttachList : Option J → Except PyErr (List AttachmentM)
  | none => .ok []
  | some (.arr xs) => xs.mapM validateAttachmentM
  | some _ => .error .validationError

def validateQuoteM : J → Except PyErr QuoteM
  | .obj d0 =>
    let d := extractMapped d0 "source" quoteMapping
    do
    let src ← match jLookup d "source" with
      | some v => validateUser v
      | none => .error .validationError
    let idv ← match jLookup d "id" with
      | some v => vInt v
      | none => .error .validationError
    let text ← optStrF d "text"
    let atts ← vAttachList (jLookup d "attachments")
    pure ⟨src, idv, text, atts⟩
  | _ => .error .validationError

def validateMentionM : J → Except PyErr MentionM
  | .obj d0 =>
    let d := extractMapped d0 "target" mentionMapping
    do
    let st ← match jLookup d "start" with
      | some v => vInt v
      | none => .error .validationError
    let len ← match jLookup d "length" with
      | some v => vInt v
      | none => .error .validationError
    let target ← match jLookup d "target" with
      | some v => validateUser v
      | none => .error .validationError
    pure ⟨st, len, target⟩
  | _ => .error .validationError

def validateDataMessageM : J → Except PyErr DataMessageM
  | .obj d => do
    let ts ← optIntF d "timestamp"
    let msg ← optStrF d "message"
    let eis ← match jLookup d "expiresInSeconds" with
      | none => pure 0
      | some v => vInt v
    let vo ← match jLookup d "viewOnce" with
      | none => pure false
      | some v => vBool v
    let atts ← vAttachList (jLookup d "attachments")
    let reac ← vOptField validateReactionM (jLookup d "reaction")
    let quo ← vOptField validateQuoteM (jLookup d "quote")
    let gi ← vOptField validateGroupInfoM (jLookup d "groupInfo")
    let ments ← match jLookup d "mentions" with
      | none => pure []
      | some (.arr xs) => xs.mapM validateMentionM
      | some _ => .error .validationError
    let rd ← vOptField validateRemoteDeleteM (jLookup d "remoteDelete")
    pure ⟨ts, msg, eis, vo, atts, reac, quo, gi, ments, rd⟩
  | _ => .error .validationError

def validateReceiptM : J → Except PyErr ReceiptMessageM
  | .obj d => do
    let w ← match jLookup d "when" with
      | some v => vInt v
      | none => .error .validationError
    let del ← match jLookup d "isDelivery" with
      | none => pure false
      | some v => vBool v
    let rd ← match jLookup d "isRead" with
      | none => pure false
      | some v => vBool v
    let vw ← match jLookup d "isViewed" with
      | none => pure false
      | some v => vBool v
    let tss ← match jLookup d "timestamps" with
      | none => pure []
      | some (.arr xs) => xs.mapM vInt
      | some _ => .error .validationError
    pure ⟨w, del, rd, vw, tss⟩
  | _ => .error .validationError

def validateTypingM : J → Except PyErr TypingMessageM
  | .obj d => do
    let act ← match jLookup d "action" with
      | some v => vStr v
      | none => .error .validationError
    let ts ← match jLookup d "timestamp" with
      | some v => vInt v
      | none => .error .validationError
    let gid ← optStrF d "groupId"
    pure ⟨act, ts, gid⟩
  | _ => .error .validationError

/-- The `AliasPath('syncMessage', 'sentMessage')` lookup. -/
def syncAliasPath (d : List (String × J)) : Option J :=
  match jLookup d "syncMessage" with
  | some (.obj sm) => jLookup sm "sentMessage"
  | _ => none

/-- Pydantic validation of `types.Message` (the v2 parser): the
`MappedModel` before-validator gathers the `sourceName`/`sourceNumber`/
`sourceUuid` siblings into `user`, then the declared fields are validated
(alias first, field name second thanks to `populate_by_name`).  Pydantic
collects all field errors; this model stops at the first, which does not
matter for any property proved here. -/
def validateMessage : J → Except PyErr MessageM
  | .obj d0 =>
    let d := extractMapped d0 "user" userMapping
    do
    let source ← match jLookup d "source" with
      | some v => vStr v
      | none => .error .validationError
    let user ← match jLookup d "user" with
      | some v => validateUser v
      | none => .error .validationError
    let sourceDevice ← match jLookup d "sourceDevice" with
      | some v => vInt v
      | none => .error .validationError
    let timestamp ← match jLookup d "timestamp" with
      | some v => vInt v
      | none => .error .validationError
    let srt ← match fieldL d ["serverReceivedTimestamp", "server_received_timestamp"] with
      | none => pure none
      | some v => (vInt v).map some
    let sdt ← match fieldL d ["serverDeliveredTimestamp", "server_delivered_timestamp"] with
      | none => pure none
      | some v => (vInt v).map some
    let dataF ← vOptField validateDataMessageM (fieldL d ["dataMessage", "data"])
    let syncF ← vOptField validateDataMessageM ((syncAliasPath d).orElse fun _ => jLookup d "sync")
    let receiptF ← vOptField validateReceiptM (fieldL d ["receiptMessage", "receipt"])
    let typingF ← vOptField validateTypingM (fieldL d ["typingMessage", "typing"])
    pure ⟨source, user, sourceDevice, timestamp, srt, sdt, dataF, syncF, receiptF, typingF⟩
  | _ => .error .validationError

/-! ### Serialization (`model_dump` with the `MappedModel` wrap serializer)

`model_dump` emits FIELD NAMES (not aliases) and includes `None` values;
the wrap serializer then flattens each `Mapped` field back to its raw
keys.  Nested models serialize recursively through their own wrap
serializers. -/

def optStrJ : Option String → J
  | none => .null
  | some s => .str s

def optIntJ : Option Int → J
  | none => .null
  | some n => .num n

def optBoolJ : Option Bool → J
  | none => .null
  | some b => .bool b

def optJ (f : α → J) : Option α → J
  | none => .null
  | some x => f x

def dumpUser (u : UserM) : J :=
  .obj [("name", optStrJ u.name), ("number", optStrJ u.number), ("uuid", optStrJ u.uuid)]

def dumpAttachmentM : AttachmentM → J
  | .mk ct fn idv size width height cap upload thumb =>
    .obj [("content_type", optStrJ ct), ("filename", optStrJ fn), ("id", optStrJ idv),
          ("size", optIntJ size), ("width", optIntJ width), ("height", optIntJ height),
          ("caption", optStrJ cap), ("upload_timestamp", optIntJ upload),
          ("thumbnail", match thumb with | none => .null | some t => dumpAttachmentM t)]

def dumpGroupInfoM (g : GroupInfoM) : J :=
  .obj [("id", .str g.id), ("name", optStrJ g.name), ("revision", .num g.revision),
        ("type", optStrJ g.type)]

def dumpRemoteDeleteM (r : RemoteDeleteM) : J :=
  .obj [("timestamp", .num r.timestamp)]

def dumpReactionM (r : ReactionM) : J :=
  .obj (flattenMapped
    [("emoji", optStrJ r.emoji), ("target", dumpUser r.target),
     ("timestamp", optIntJ r.timestamp), ("is_remove", optBoolJ r.is_remove)]
    "target" reactionMapping)

def dumpQuoteM (q : QuoteM) : J :=
  .obj (flattenMapped
    [("source", dumpUser q.source), ("id", .num q.id), ("text", optStrJ q.text),
     ("attachments", .arr (q.attachments.map dumpAttachmentM))]
    "source" quoteMapping)

def dumpMentionM (mn : MentionM) : J :=
  .obj (flattenMapped
    [("start", .num mn.start), ("length", .num mn.length), ("target", dumpUser mn.target)]
    "target" mentionMapping)

def dumpDataMessageM (dm : DataMessageM) : J :=
  .obj [("timestamp", optIntJ dm.timestamp), ("message", optStrJ dm.message),
        ("expires_in_seconds", .num dm.expires_in_seconds), ("view_once", .bool dm.view_once),
        ("attachments", .arr (dm.attachments.map dumpAttachmentM)),
        ("reaction", optJ dumpReactionM dm.reaction), ("quote", optJ dumpQuoteM dm.quote),
        ("group_info", optJ dumpGroupInfoM dm.group_info),
        ("mentions", .arr (dm.mentions.map dumpMentionM)),
        ("remote_delete", optJ dumpRemoteDeleteM dm.remote_delete)]

def dumpReceiptM (r : ReceiptMessageM) : J :=
  .obj [("when", .num r.whenAt), ("is_delivery", .bool r.is_delivery),
        ("is_read", .bool r.is_read), ("is_viewed", .bool r.is_viewed),
        ("timestamps", .arr (r.timestamps.map J.num))]

def dumpTypingM (t : TypingMessageM) : J :=
  .obj [("action", .str t.action), ("timestamp", .num t.timestamp),
        ("group_id", optStrJ t.group_id)]

/-- `Message.model_dump()`: field names, `None`s included, then the wrap
serializer flattens `user` back to `sourceName`/`sourceNumber`/`sourceUuid`. -/
def dumpMessage (m : MessageM) : List (String × J) :=
  flattenMapped
    [("source", .str m.source), ("user", dumpUser m.user),
     ("sourceDevice", .num m.sourceDevice), ("timestamp", .num m.timestamp),
     ("server_received_timestamp", optIntJ m.server_received_timestamp),
     ("server_delivered_timestamp", optIntJ m.server_delivered_timestamp),
     ("data", optJ dumpDataMessageM m.data), ("sync", optJ dumpDataMessageM m.sync),
     ("receipt", optJ dumpReceiptM m.receipt), ("typing", optJ dumpTypingM m.typing)]
    "user" userMapping

/-! ### Group public id (`types.GroupInfo.public_id`) -/

/-- Standard base64 alphabet. -/
def b64Char (n : Nat) : Char :=
  if n < 26 then Char.ofNat ('A'.toNat + n)
  else if n < 52 then Char.ofNat ('a'.toNat + (n - 26))
  else if n < 62 then Char.ofNat ('0'.toNat + (n - 52))
  else if n = 62 then '+' else '/'

/-- RFC 4648 base64 of a byte list (Python `base64.b64encode`). -/
def b64encode : List Nat → List Char
  | [] => []
  | [a] => [b64Char (a / 4), b64Char (a % 4 * 16), '=', '=']
  | [a, b] => [b64Char (a / 4), b64Char (a % 4 * 16 + b / 16), b64Char (b % 16 * 4), '=']
  | a :: b :: c :: rest =>
    b64Char (a / 4) :: b64Char (a % 4 * 16 + b / 16) :: b64Char (b % 16 * 4 + c / 64) ::
      b64Char (c % 64) :: b64encode rest

/-- UTF-8 bytes of one char (Python `str.encode()`). -/
def charUtf8 (c : Char) : List Nat :=
  let n := c.toNat
  if n < 128 then [n]
  else if n < 2048 then [192 + n / 64, 128 + n % 64]
  else if n < 65536 then [224 + n / 4096, 128 + n / 64 % 64, 128 + n % 64]
  else [240 + n / 262144, 128 + n / 4096 % 64, 128 + n / 64 % 64, 128 + n % 64]

/-- UTF-8 bytes of a string. -/
def strBytes (s : String) : List Nat := (s.data.map charUtf8).flatten

/-- `'group.' + base64` over raw id bytes. -/
def publicIdOfBytes (bytes : List Nat) : String :=
  "group." ++ String.mk (b64encode bytes)

/-- `GroupInfo.public_id` (types.py:134):
`f'group.{base64.b64encode(self.id.encode()).decode()}'`. -/
def groupPublicId (id : String) : String := publicIdOfBytes (strBytes id)

/-- Python `a or b` on optional strings (truthiness, not just `None`ness). -/
def pyOrStr (a b : Option String) : Option String :=
  match a with
  | some s => if s ≠ "" then some s else b
  | none => b

/-- `Message.recipient` (types.py:238): the group's public id when
`is_group()`, else `self.user.uuid or self.user.number`. -/
def MessageM.recipient (m : MessageM) : Option String :=
  match m.data with
  | some dm =>
    match dm.group_info with
    | some gi => some (groupPublicId gi.id)
    | none => pyOrStr m.user.uuid m.user.number
  | none => pyOrStr m.user.uuid m.user.number

/-! ### Receiver shapes and resolution (`signalbot/bot.py`) -/

/-- `_is_phone_number`: `phone_number[0]` raises `IndexError` on the empty
string; otherwise a leading `+` and at most 15 further characters. -/
def isPhoneNumber (s : String) : Except PyErr Bool :=
  match s.data with
  | [] => .error .indexError
  | c :: rest =>
    if c ≠ '+' then .ok false
    else if rest.length > 15 then .ok false
    else .ok true

/-- Remove every occurrence of a (nonempty) pattern, Python
`s.replace(pat, '')`, with fuel (the scan consumes at least one character
per step, so `fuel = l.length` never runs out; fuel keeps the definition
structurally recursive and kernel-evaluable). -/
def removeAllFuel (pat : List Char) : Nat → List Char → List Char
  | 0, l => l
  | _ + 1, [] => []
  | fuel + 1, c :: rest =>
    if startsWithChars pat (c :: rest) ∧ !pat.isEmpty then
      removeAllFuel pat fuel ((c :: rest).drop pat.length)
    else c :: removeAllFuel pat fuel rest

def removeAll (pat l : List Char) : List Char := removeAllFuel pat l.length l

def isBrace (c : Char) : Bool := c = '\x7b' || c = '\x7d'

/-- `_is_valid_uuid`: the transformations CPython's `uuid.UUID(str)`
constructor applies — drop `urn:` and `uuid:`, strip braces, drop dashes —
then exactly 32 characters accepted by `int(hex, 16)`. -/
def isValidUuid (s : String) : Bool :=
  let cs := removeAll "uuid:".data (removeAll "urn:".data s.data)
  let cs := stripEnds isBrace cs
  let cs := cs.filter (· ≠ '-')
  cs.length = 32 && (pyIntHex cs).isSome

/-- Python `str.split(sep)` for a single-char separator. -/
def splitOnChar (sep : Char) : List Char → List (List Char)
  | [] => [[]]
  | c :: rest =>
    let r := splitOnChar sep rest
    if c = sep then [] :: r
    else
      match r with
      | h :: t => (c :: h) :: t
      | [] => [[c]]

def isUsernameChar (c : Char) : Bool :=
  ('A' ≤ c && c ≤ 'Z') || ('a' ≤ c && c ≤ 'z') || ('0' ≤ c && c ≤ '9') || c = '_'

def isAlnumAscii (c : Char) : Bool :=
  ('A' ≤ c && c ≤ 'Z') || ('a' ≤ c && c ≤ 'z') || ('0' ≤ c && c ≤ '9')

/-- `re.match(r"^P+$", cs)` as a boolean: all characters satisfy `P`
(nonempty), where Python's `$` also matches just before one trailing
newline. -/
def rePlusDollar (p : Char → Bool) (cs : List Char) : Bool :=
  (!cs.isEmpty && cs.all p) ||
  (cs.getLast? = some '\n' && !cs.dropLast.isEmpty && cs.dropLast.all p)

/-- `SignalBot._is_username`: `handle.digits` with a 3-32 char word handle,
2-9 decimal digits parsing to a nonzero int. -/
def isUsername (s : String) : Bool :=
  match splitOnChar '.' s.data with
  | [characters, digits] =>
    if characters.length < 3 || characters.length > 32 then false
    else if !rePlusDollar isUsernameChar characters then false
    else if digits.length < 2 || digits.length > 9 then false
    else
      match pyIntVal 10 digits with
      | some n => n != 0
      | none => false
  | _ => false

/-- `_is_group_id`: `re.match(r"^group\.[a-zA-Z0-9]{59}=$", s)` (with
Python's `$` newline allowance). -/
def isGroupId (s : String) : Bool :=
  match s.data with
  | 'g' :: 'r' :: 'o' :: 'u' :: 'p' :: '.' :: rest =>
    let body := rest.take 59
    let tl := rest.drop 59
    body.length = 59 && body.all isAlnumAscii && (tl = ['='] || tl = ['=', '\n'])
  | _ => false

/-- A row of the group cache (`bot.py` group dicts, the fields resolution
uses). -/
structure GroupRec where
  id : String
  internal_id : String
  name : String
deriving DecidableEq, Repr

def alookup {α : Type} : List (String × α) → String → Option α
  | [], _ => none
  | (k, v) :: rest, key => if k = key then some v else alookup rest key

/-- The directory cache built by `_detect_groups`.  `byName` models
`_groups_by_name` (a `defaultdict(list)`): a name bound several times keeps
all bindings and lookup takes the FIRST (i.e. `groups[0]`, never empty for a
present name since lists are built by appending). -/
structure Directory where
  byInternalId : List (String × GroupRec)
  byName : List (String × GroupRec)

/-- `_get_group_by_name`: first-inserted group of that name (the
more-than-one-group warning is just a log line). -/
def getGroupByName (dir : Directory) (n : String) : Option GroupRec :=
  alookup dir.byName n

/-- `SignalBot._resolve_receiver`: the four structural shape checks in
order, then internal-id lookup, then name lookup, then
`SignalBotError("Cannot resolve receiver.")`. -/
def resolveReceiver (dir : Directory) (receiver : String) : Except PyErr String := do
  let isPhone ← isPhoneNumber receiver
  if isPhone then pure receiver
  else if isValidUuid receiver then pure receiver
  else if isUsername receiver then pure receiver
  else if isGroupId receiver then pure receiver
  else
    match alookup dir.byInternalId receiver with
    | some g => pure g.id
    | none =>
      match getGroupByName dir receiver with
      | some g => pure g.id
      | none => .error .signalBotError

/-! ### Handler eligibility and the produce step (`bot.py`) -/

/-- A `contacts`/`groups` argument: `bool` or a list of ids
(`AllowAll = bool true`, `DenyAll = bool false`, `ExplicitSet = list`). -/
inductive PyRule where
  | bool (b : Bool)
  | list (ids : List String)

/-- Python `x in list_of_str` for a JSON value. -/
def memJStr (v : J) (l : List String) : Bool :=
  match v with
  | .str s => l.contains s
  | _ => false

/-- `SignalBot._should_react_for_contact` on a parsed v1 message.  For a
group message whose groups rule is not `True`, bot.py:438 evaluates
`message.group_info.id` — but the `message.py` `Message` dataclass has no
`group_info` attribute, so this raises `AttributeError` before any
directory lookup can happen. -/
def shouldReactForContact (m : MessageV1) (contacts group_ids : PyRule) :
    Except PyErr Bool :=
  if m.is_private &&
      (match contacts with
       | .bool b => b
       | .list cs => memJStr m.source cs) then .ok true
  else if m.is_group then
    match group_ids with
    | .bool true => .ok true
    | _ => .error .attributeError
  else .ok false

/-- `SignalBot._should_react_for_lambda`. -/
def shouldReactForLambda (m : MessageV1) (f : Option (MessageV1 → Bool)) : Bool :=
  match f with
  | none => true
  | some p => p m

/-- One registration after `_resolve_commands`: command (as a tag),
contacts rule, resolved groups rule, optional predicate. -/
structure Registration where
  cmd : Nat
  contacts : PyRule
  group_ids : PyRule
  pred : Option (MessageV1 → Bool)

/-- `SignalBot._ask_commands_to_handle`: enqueue one `(command, message)`
job per registration that passes both checks, in registration order. -/
def askCommandsToHandle (commands : List Registration) (m : MessageV1) :
    Except PyErr (List (Nat × MessageV1)) :=
  commands.foldlM
    (fun acc reg => do
      let ok ← shouldReactForContact m reg.contacts reg.group_ids
      if !ok then pure acc
      else if !shouldReactForLambda m reg.pred then pure acc
      else pure (acc ++ [(reg.cmd, m)]))
    []

/-- One iteration of `SignalBot._produce` on one raw payload: parse
(`UnknownMessageFormatError` is caught and the message dropped; any other
exception escapes the producer), then the unknown-group refresh check —
whose `message.group_info` access raises `AttributeError` for every group
message — then matching and enqueueing.  Returns the enqueued jobs. -/
def produceStep (commands : List Registration) (raw : J) :
    Except PyErr (List (Nat × MessageV1)) :=
  match messageFromJson raw with
  | .error .unknownMessageFormat => .ok []
  | .error e => .error e
  | .ok m =>
    if m.is_group then .error .attributeError
    else askCommandsToHandle commands m

/-! ### Supervisor backoff (`bot.py` `_rerun_on_exception`,
`v2/utils.py` `rerun_on_exception`)

Both share `init_sleep = 1`, `reset = 180`; `max_sleep` is 300 in the
top-level variant and 60 in the worker variant.  Given the integer-second
durations of the successive runs, `rerunSleeps` yields the sleep taken
after each run. -/

def rerunSleeps (maxSleep : Nat) : Nat → List Nat → List Nat
  | _, [] => []
  | nextSleep, dur :: rest =>
    if dur < 180 then nextSleep :: rerunSleeps maxSleep (min maxSleep (nextSleep * 2)) rest
    else 1 :: rerunSleeps maxSleep 1 rest

/-- The top-level stream-consumer variant (`max_sleep = 5 * 60`). -/
def botRerunSleeps (durs : List Nat) : List Nat := rerunSleeps 300 1 durs

/-- The worker variant (`max_sleep = 1 * 60`). -/
def workerRerunSleeps (durs : List Nat) : List Nat := rerunSleeps 60 1 durs

/-! ### v2 listener filtering (`signalbot/v2/router.py` `_filter_message`) -/

structure ListenerFilter where
  contacts : PyRule
  groups : PyRule
  filterF : Option (MessageM → Bool)

/-- `_filter_message`: a boolean `groups`/`contacts` rule returns
immediately (skipping the predicate); an explicit list requires the group's
public id resp. the user's uuid to be listed, then the predicate. -/
def filterMessage (f : ListenerFilter) (m : MessageM) : Bool :=
  if m.is_group then
    match f.groups with
    | .bool b => b
    | .list gs =>
      let gid := match m.data with
        | some dm =>
          match dm.group_info with
          | some gi => groupPublicId gi.id
          | none => ""
        | none => ""
      if !gs.contains gid then false
      else
        match f.filterF with
        | some p => p m
        | none => true
  else
    match f.contacts with
    | .bool b => b
    | .list cs =>
      let inList := match m.user.uuid with
        | some u => cs.contains u
        | none => false
      if !inList then false
      else
        match f.filterF with
        | some p => p m
        | none => true

/-! ### Concrete claim inputs -/

/-- A decodable envelope with source identity and timestamp whose payload is
`receiptMessage` (none of the keys `message_from_json` recognises). -/
def c1env : J :=
  .obj [("envelope", .obj [("source", .str "+1"), ("sourceUuid", .str "u1"),
    ("timestamp", .num 1), ("receiptMessage", .obj [("when", .num 5)])])]

/-- The spec's end-to-end inbound payload (C2). -/
def c2raw : J :=
  .obj [("envelope", .obj [
    ("dataMessage", .obj [("message", .str "hi"),
      ("groupInfo", .obj [("groupId", .str "G1"), ("revision", .num 1)])]),
    ("sourceUuid", .str "u1"), ("timestamp", .num 100)])]

/-- The single registration of the C2 scenario: groups rule
`ExplicitSet({"G1pub"})` (already resolved), contacts AllowAll, no
predicate. -/
def c2commands : List Registration := [⟨1, .bool true, .list ["G1pub"], none⟩]

/-- A v2 message with `Unknown` payload (no payload field present). -/
def mUnknown : MessageM := ⟨"s", ⟨none, none, some "u1"⟩, 1, 100, none, none, none, none, none, none⟩

/-- A registration whose contacts rule is AllowAll and groups rule DenyAll. -/
def fAllowContacts : ListenerFilter := ⟨.bool true, .bool false, none⟩

/-- A v1 private message from source `"+1"`. -/
def mPriv1 : MessageV1 :=
  ⟨.str "+1", .null, .str "u", .num 1, .dataMessage, .str "hi", [], .null,
   ⟨.null, ⟨.null, .null, .null⟩, .null, .null⟩, .arr [], .null⟩

/-- A v1 group message: `group` holds the raw internal id `"G1"`. -/
def mV1group : MessageV1 :=
  ⟨.str "+1", .null, .str "u", .num 1, .dataMessage, .str "hi", [], .str "G1",
   ⟨.null, ⟨.null, .null, .null⟩, .null, .null⟩, .arr [], .null⟩

/-- A directory that knows `"+491234567890"` as a group NAME mapping to a
different id (C4: the phone shape must still win). -/
def c4dir : Directory := ⟨[], [("+491234567890", ⟨"group.XYZ", "internal", "+491234567890"⟩)]⟩

/-- Envelope whose attachment has the non-numeric `"size": "x"` (C7). -/
def c7raw : J :=
  .obj [("envelope", .obj [("source", .str "+1"), ("sourceUuid", .str "u"),
    ("timestamp", .num 1),
    ("dataMessage", .obj [("message", .str "hi"),
      ("attachments", .arr [.obj [("size", .str "x")]])])])]

/-- A wire payload for the C8 round trip, carrying `expiresInSeconds: 7`. -/
def w8 : J :=
  .obj [("source", .str "s1"), ("sourceUuid", .str "u1"), ("sourceDevice", .num 1),
    ("timestamp", .num 100), ("serverReceivedTimestamp", .num 7),
    ("serverDeliveredTimestamp", .num 8),
    ("dataMessage", .obj [("message", .str "hi"), ("expiresInSeconds", .num 7)])]

/-- The `expires_in_seconds` observation of a validated message (C8). -/
def expiresOf (r : Except PyErr MessageM) : Except PyErr (Option Int) :=
  r.map fun m => m.data.map fun dm => dm.expires_in_seconds

/-- An empty directory. -/
def emptyDir : Directory := ⟨[], []⟩

/-- A 44-byte group id (44 times `A`), the realistic internal-id length for
which `public_id` has the documented 66-character shape. -/
def idA : String := "AAAAAAAAAAAAAAAAAAAAAAAAAAAAAAAAAAAAAAAAAAAA"

/-! ## Helper lemmas -/

theorem jLookup_filter (l : List (String × J)) (p : String → Bool) (k : String) :
    jLookup (l.filter fun kv => p kv.1) k = if p k then jLookup l k else none := by
  induction l with
  | nil => simp [jLookup]
  | cons kv rest ih =>
    obtain ⟨k2, v⟩ := kv
    by_cases hp : p k2 <;> by_cases hk : k2 = k <;>
      simp_all [jLookup, hp, hk, ih]

theorem jLookup_filter_keep {l : List (String × J)} {k : String}
    (p : String × J → Bool) (hp : ∀ v, p (k, v) = true) :
    jLookup (l.filter p) k = jLookup l k := by
  induction l with
  | nil => rfl
  | cons kv rest ih =>
    obtain ⟨k2, v⟩ := kv
    by_cases hk : k2 = k
    · subst hk
      rw [List.filter_cons_of_pos (hp v)]
      simp [jLookup]
    · cases hpv : p (k2, v)
      · rw [List.filter_cons_of_neg (by simp [hpv])]
        simp [jLookup, hk, ih]
      · rw [List.filter_cons_of_pos hpv]
        simp [jLookup, hk, ih]

theorem jLookup_filter_none {l : List (String × J)} {k : String}
    (h : jLookup l k = none) (p : String × J → Bool) :
    jLookup (l.filter p) k = none := by
  induction l with
  | nil => rfl
  | cons kv rest ih =>
    obtain ⟨k2, v⟩ := kv
    by_cases hk : k2 = k
    · subst hk; simp [jLookup] at h
    · simp [jLookup, hk] at h
      cases hpv : p (k2, v)
      · rw [List.filter_cons_of_neg (by simp [hpv])]
        exact ih h
      · rw [List.filter_cons_of_pos hpv]
        simp [jLookup, hk]
        exact ih h

theorem jLookup_filter_drop {l : List (String × J)} {k : String}
    (p : String × J → Bool) (hp : ∀ v, p (k, v) = false) :
    jLookup (l.filter p) k = none := by
  induction l with
  | nil => rfl
  | cons kv rest ih =>
    obtain ⟨k2, v⟩ := kv
    by_cases hk : k2 = k
    · subst hk
      rw [List.filter_cons_of_neg (by simp [hp v])]
      exact ih
    · cases hpv : p (k2, v)
      · rw [List.filter_cons_of_neg (by simp [hpv])]
        exact ih
      · rw [List.filter_cons_of_pos hpv]
        simpa [jLookup, hk] using ih

theorem jLookup_append (l1 l2 : List (String × J)) (k : String) :
    jLookup (l1 ++ l2) k = (jLookup l1 k).orElse fun _ => jLookup l2 k := by
  induction l1 with
  | nil => simp [jLookup]
  | cons kv rest ih =>
    obtain ⟨k2, v⟩ := kv
    by_cases hk : k2 = k <;> simp [jLookup, hk, ih]

theorem jLookup_eq_none_iff (l : List (String × J)) (k : String) :
    jLookup l k = none ↔ ∀ kv ∈ l, kv.1 ≠ k := by
  induction l with
  | nil => simp [jLookup]
  | cons kv rest ih =>
    obtain ⟨k2, v⟩ := kv
    by_cases hk : k2 = k <;> simp [jLookup, hk, ih]

/-- Looking up any key other than the three raw keys and the gathered
field in the output of the `user` gather is a lookup in the input. -/
theorem jLookup_extractUser (kvs : List (String × J)) (k : String)
    (hk1 : k ≠ "sourceName") (hk2 : k ≠ "sourceNumber") (hk3 : k ≠ "sourceUuid")
    (hk4 : k ≠ "user") (huser : jLookup kvs "user" = none) :
    jLookup (extractMapped kvs "user" userMapping) k = jLookup kvs k := by
  have hkeep : ∀ v : J, (!(userMapping.any fun sr => sr.2 = (k, v).1)) = true := by
    intro v
    simp [userMapping, Ne.symm hk1, Ne.symm hk2, Ne.symm hk3]
  simp only [extractMapped]
  split
  · exact jLookup_filter_keep _ hkeep
  · rw [setKey, if_neg (by simp [jLookup_filter_none huser])]
    rw [jLookup_append, jLookup_filter_keep _ hkeep]
    cases h : jLookup kvs k <;> simp [jLookup, Ne.symm hk4]

/-- After the gather, `user` holds exactly the collected sibling keys
(here: only `sourceUuid` present). -/
theorem jLookup_extractUser_uuid (kvs : List (String × J)) (w : J)
    (hsn : jLookup kvs "sourceName" = none) (hsnum : jLookup kvs "sourceNumber" = none)
    (hsu : jLookup kvs "sourceUuid" = some w) (huser : jLookup kvs "user" = none) :
    jLookup (extractMapped kvs "user" userMapping) "user" = some (.obj [("uuid", w)]) := by
  simp only [extractMapped, userMapping, List.filterMap_cons, hsn, hsnum, hsu]
  rw [if_neg (by simp)]
  rw [setKey, if_neg (by simp [jLookup_filter_none huser])]
  rw [jLookup_append, jLookup_filter_none huser]
  rfl

theorem flattenMapped_append (l1 l2 : List (String × J)) (f : String)
    (M : List (String × String)) :
    flattenMapped (l1 ++ l2) f M = flattenMapped l1 f M ++ flattenMapped l2 f M := by
  simp [flattenMapped]

theorem flattenMapped_no_field (l : List (String × J)) (f : String)
    (M : List (String × String)) (h : ∀ kv ∈ l, kv.1 ≠ f) :
    flattenMapped l f M = l := by
  induction l with
  | nil => simp [flattenMapped]
  | cons kv rest ih =>
    have h1 : kv.1 ≠ f := h kv (by simp)
    have h2 : ∀ kv ∈ rest, kv.1 ≠ f := fun x hx => h x (by simp [hx])
    simp [flattenMapped, h1] at ih ⊢
    exact ih fun a b hab => h2 (a, b) hab

@[simp] theorem exceptBind_ok {ε α β : Type} (a : α) (f : α → Except ε β) :
    (Except.ok a >>= f : Except ε β) = f a := rfl

@[simp] theorem exceptBind_err {ε α β : Type} (e : ε) (f : α → Except ε β) :
    ((Except.error e : Except ε α) >>= f : Except ε β) = .error e := rfl

@[simp] theorem exceptPure {ε α : Type} (a : α) : (pure a : Except ε α) = .ok a := rfl

@[simp] theorem exceptMap_ok {ε α β : Type} (a : α) (f : α → β) :
    (Except.ok a : Except ε α).map f = .ok (f a) := rfl

@[simp] theorem exceptMap_err {ε α β : Type} (e : ε) (f : α → β) :
    (Except.error e : Except ε α).map f = .error e := rfl

/-- If `p c` holds and `p x` fails then `c ≠ x`. -/
theorem ne_of_pred {p : Char → Bool} {c x : Char} (hc : p c = true)
    (hx : p x = false) : c ≠ x := by
  intro he
  subst he
  rw [hc] at hx
  cases hx

/-! ## Claim C1 -/

/-- C1 counterexample: a valid envelope (decodable, with source identity and
timestamp) whose payload is `receiptMessage` — none of the recognized
payload keys of `message_from_json` — makes `message_from_json` raise
`UnknownMessageFormatError` instead of returning a `Message` with `Unknown`
payload.  The claim "parsing ... never returns an error" is false for the
parser the bot pipeline uses. -/
theorem c1_counterexample : messageFromJson c1env = .error .unknownMessageFormat := rfl

/-- C1 amended: for the pydantic `types.Message` model (the v2 parser),
every envelope that validates — decodable, with `source`, a source
identity (`sourceUuid`), `sourceDevice` and `timestamp` — and that
contains NONE of the recognized payload keys
(`dataMessage`/`syncMessage.sentMessage`/`receiptMessage`/`typingMessage`,
nor their field names) validates successfully into a `Message` whose
`type()` is `UNKNOWN`; the legacy `message_from_json` instead raises
`UnknownMessageFormatError` on such envelopes (see the counterexample). -/
theorem c1_unknown_payload :
    ∀ (kvs : List (String × J)) (src u : String) (dv ts : Int),
      jLookup kvs "source" = some (.str src) →
      jLookup kvs "sourceName" = none →
      jLookup kvs "sourceNumber" = none →
      jLookup kvs "sourceUuid" = some (.str u) →
      jLookup kvs "user" = none →
      jLookup kvs "sourceDevice" = some (.num dv) →
      jLookup kvs "timestamp" = some (.num ts) →
      jLookup kvs "serverReceivedTimestamp" = none →
      jLookup kvs "server_received_timestamp" = none →
      jLookup kvs "serverDeliveredTimestamp" = none →
      jLookup kvs "server_delivered_timestamp" = none →
      jLookup kvs "dataMessage" = none →
      jLookup kvs "data" = none →
      jLookup kvs "syncMessage" = none →
      jLookup kvs "sync" = none →
      jLookup kvs "receiptMessage" = none →
      jLookup kvs "receipt" = none →
      jLookup kvs "typingMessage" = none →
      jLookup kvs "typing" = none →
      validateMessage (.obj kvs) =
        .ok ⟨src, ⟨none, none, some u⟩, dv, ts, none, none, none, none, none, none⟩ ∧
      msgType ⟨src, ⟨none, none, some u⟩, dv, ts, none, none, none, none, none, none⟩ =
        .unknown := by
  intro kvs src u dv ts hsrc hsn hsnum hsu huser hdev hts hsrt1 hsrt2 hsdt1 hsdt2
    hdm hdata hsm hsync hrm hreceipt htm htyping
  refine ⟨?_, rfl⟩
  have e1 := jLookup_extractUser kvs "source" (by decide) (by decide) (by decide) (by decide) huser
  have e2 := jLookup_extractUser_uuid kvs (.str u) hsn hsnum hsu huser
  have e3 := jLookup_extractUser kvs "sourceDevice" (by decide) (by decide) (by decide) (by decide) huser
  have e4 := jLookup_extractUser kvs "timestamp" (by decide) (by decide) (by decide) (by decide) huser
  have e5 := jLookup_extractUser kvs "serverReceivedTimestamp" (by decide) (by decide) (by decide) (by decide) huser
  have e6 := jLookup_extractUser kvs "server_received_timestamp" (by decide) (by decide) (by decide) (by decide) huser
  have e7 := jLookup_extractUser kvs "serverDeliveredTimestamp" (by decide) (by decide) (by decide) (by decide) huser
  have e8 := jLookup_extractUser kvs "server_delivered_timestamp" (by decide) (by decide) (by decide) (by decide) huser
  have e9 := jLookup_extractUser kvs "dataMessage" (by decide) (by decide) (by decide) (by decide) huser
  have e10 := jLookup_extractUser kvs "data" (by decide) (by decide) (by decide) (by decide) huser
  have e11 := jLookup_extractUser kvs "syncMessage" (by decide) (by decide) (by decide) (by decide) huser
  have e12 := jLookup_extractUser kvs "sync" (by decide) (by decide) (by decide) (by decide) huser
  have e13 := jLookup_extractUser kvs "receiptMessage" (by decide) (by decide) (by decide) (by decide) huser
  have e14 := jLookup_extractUser kvs "receipt" (by decide) (by decide) (by decide) (by decide) huser
  have e15 := jLookup_extractUser kvs "typingMessage" (by decide) (by decide) (by decide) (by decide) huser
  have e16 := jLookup_extractUser kvs "typing" (by decide) (by decide) (by decide) (by decide) huser
  simp [validateMessage, e1, e2, e3, e4, e5, e6, e7, e8, e9, e10, e11, e12, e13, e14,
        e15, e16, hsrc, hdev, hts, hsrt1, hsrt2, hsdt1, hsdt2, hdm, hdata, hsm, hsync,
        hrm, hreceipt, htm, htyping, vStr, vInt, validateUser, optStrF, vOptStr, jLookup,
        fieldL, vOptField, syncAliasPath]

/-- C1 witness: a concrete envelope with only the required header fields. -/
theorem c1_unknown_payload_witness :
    validateMessage (.obj [("source", .str "+1"), ("sourceUuid", .str "u1"),
        ("sourceDevice", .num 2), ("timestamp", .num 5)]) =
      .ok ⟨"+1", ⟨none, none, some "u1"⟩, 2, 5, none, none, none, none, none, none⟩ ∧
    msgType ⟨"+1", ⟨none, none, some "u1"⟩, 2, 5, none, none, none, none, none, none⟩ =
      .unknown :=
  c1_unknown_payload _ "+1" "u1" 2 5 rfl rfl rfl rfl rfl rfl rfl rfl rfl rfl rfl rfl
    rfl rfl rfl rfl rfl rfl rfl

/-! ## Claim C2 -/

/-- C2: at the spec's exact inbound payload
`{"envelope":{"dataMessage":{"message":"hi","groupInfo":{"groupId":"G1","revision":1}},"sourceUuid":"u1","timestamp":100}}`
with the single registration `(contacts=AllowAll, groups=ExplicitSet({"G1pub"}))`,
the produce step enqueues ZERO jobs, not one: `message_from_json` requires
`envelope["source"]`, which this payload lacks, so parsing raises
`UnknownMessageFormatError` and the producer drops the message.  (Even with
a `source` field the produce step would then crash: bot.py accesses
`message.group_info`, an attribute the parsed `Message` dataclass does not
define.) -/
theorem c2_enqueue_zero :
    produceStep c2commands c2raw = .ok [] ∧
    messageFromJson c2raw = .error .unknownMessageFormat :=
  ⟨rfl, rfl⟩

/-! ## Claim C3 -/

/-- C3 counterexample: a message with `Unknown` payload is NOT
"neither private- nor group-shaped": `is_private()` is the negation of
`is_group()`, so an Unknown-payload message is private-shaped and the v2
listener filter matches it against a registration whose contacts rule is
AllowAll — contradicting "a message with Unknown payload matches no
registration". -/
theorem c3_counterexample :
    filterMessage fAllowContacts mUnknown = true ∧
    msgType mUnknown = .unknown ∧
    mUnknown.is_private = true :=
  ⟨rfl, rfl, rfl⟩

/-- C3 amended: for the matching actually implemented — (a) a private v1
message with `contactsRule = ExplicitSet(S)` matches exactly when its
source is in `S`; (b) a private message with contacts `DenyAll` never
matches; (c) a group message with groups `DenyAll` never matches (the code
in fact raises `AttributeError` there rather than returning False); (d) in
the v2 filter, a registration with both rules `DenyAll` matches nothing;
(e,f) `is_private` is the NEGATION of `is_group` in both models, so no
message is "neither private- nor group-shaped" — in particular an
Unknown-payload message is private-shaped (see the counterexample). -/
theorem c3_match_rules :
    (∀ (m : MessageV1) (cs : List String) (g : PyRule), m.is_private = true →
        (shouldReactForContact m (.list cs) g = .ok true ↔ memJStr m.source cs = true))
    ∧ (∀ (m : MessageV1) (g : PyRule), m.is_private = true →
        shouldReactForContact m (.bool false) g = .ok false)
    ∧ (∀ (m : MessageV1) (c : PyRule), m.is_group = true →
        shouldReactForContact m c (.bool false) ≠ .ok true)
    ∧ (∀ (m : MessageM) (p : Option (MessageM → Bool)),
        filterMessage ⟨.bool false, .bool false, p⟩ m = false)
    ∧ (∀ m : MessageV1, m.is_private = !m.is_group)
    ∧ (∀ m : MessageM, m.is_private = !m.is_group) := by
  have hpg : ∀ m : MessageV1, m.is_private = true → m.is_group = false := by
    intro m h
    simp [MessageV1.is_private] at h
    simp [MessageV1.is_group, h]
  refine ⟨?_, ?_, ?_, ?_, fun m => rfl, fun m => rfl⟩
  · intro m cs g hp
    by_cases hm : memJStr m.source cs <;>
      simp [shouldReactForContact, hp, hm, hpg m hp]
  · intro m g hp
    simp [shouldReactForContact, hp, hpg m hp]
  · intro m c hg
    have hp : m.is_private = false := by
      simp [MessageV1.is_group] at hg
      simp [MessageV1.is_private, hg]
    simp [shouldReactForContact, hp, hg]
  · intro m p
    cases hg : m.is_group <;> simp [filterMessage, hg]

/-- C3 witness: the private message from `"+1"` with
`ExplicitSet({"+1"})` matches. -/
theorem c3_match_rules_witness :
    shouldReactForContact mPriv1 (.list ["+1"]) (.bool false) = .ok true :=
  (c3_match_rules.1 mPriv1 ["+1"] (.bool false) rfl).mpr (by decide)

/-! ## Claim C4 -/

theorem isPhone_shape (s : String) (c : Char) (cs : List Char)
    (hd : s.data = c :: cs) : ∃ b, isPhoneNumber s = .ok b := by
  simp only [isPhoneNumber, hd]
  split_ifs <;> exact ⟨_, rfl⟩

/-- C4: for every input and every directory state, a string passing one of
the four structural shape checks (phone number, UUID, username, group
public id) is resolved to itself — independent of the directory, which is
consulted only after the shape checks. -/
theorem c4_shape_before_directory :
    ∀ (dir : Directory) (s : String),
      (isPhoneNumber s = .ok true ∨ isValidUuid s = true ∨isUsername s = true ∨ isGroupId s = true) →
      resolveReceiver dir s = .ok s := by
  intro dir s h
  cases hd : s.data with
  | nil =>
    have hs : s = "" := String.ext (by simp [hd])
    subst hs
    rcases h with h | h | h | h
    · rw [show isPhoneNumber "" = .error .indexError from rfl] at h
      simp at h
    · rw [show isValidUuid "" = false from rfl] at h
      cases h
    · rw [show isUsername "" = false from rfl] at h
      cases h
    · rw [show isGroupId "" = false from rfl] at h
      cases h
  | cons c cs =>
    obtain ⟨b, hb⟩ := isPhone_shape s c cs hd
    cases b with
    | true => simp [resolveReceiver, hb]
    | false =>
      rcases h with h | h | h | h
      · rw [hb] at h
        simp at h
      · simp [resolveReceiver, hb, h]
      · cases hu : isValidUuid s <;> simp [resolveReceiver, hb, hu, h]
      · cases hu : isValidUuid s <;> cases hn : isUsername s <;>
          simp [resolveReceiver, hb, hu, hn, h]

/-- C4 witness: `resolve("+491234567890")` returns the input unchanged,
even against a directory that also knows `"+491234567890"` as a group name
mapping to a different id. -/
theorem c4_shape_before_directory_witness :
    resolveReceiver c4dir "+491234567890" = .ok "+491234567890" :=
  c4_shape_before_directory c4dir "+491234567890" (.inl rfl)

/-! ## Claim C5 -/

theorem min_mul_absorb (M k y : Nat) (hk : 1 ≤ k) :
    min M (k * min M y) = min M (k * y) := by
  rcases Nat.le_total y M with h | h
  · rw [Nat.min_eq_right h]
  · rw [Nat.min_eq_left h]
    have h1 : M ≤ k * M := Nat.le_mul_of_pos_left M (by omega)
    have h2 : M ≤ k * y := le_trans h (Nat.le_mul_of_pos_left y (by omega))
    rw [Nat.min_eq_left h1, Nat.min_eq_left h2]

theorem rerunSleeps_zeros (M : Nat) :
    ∀ (n next : Nat), next ≤ M →
      rerunSleeps M next (List.replicate n 0) =
        (List.range n).map fun i => min M (2 ^ i * next) := by
  intro n
  induction n with
  | zero => intro next _; simp [rerunSleeps]
  | succ n ih =>
    intro next hle
    rw [List.replicate_succ]
    simp only [rerunSleeps, if_pos (by omega : (0 : Nat) < 180)]
    rw [ih _ (Nat.min_le_left _ _), List.range_succ_eq_map]
    simp only [List.map_cons, List.map_map, pow_zero, one_mul, Nat.min_eq_right hle]
    congr 1
    refine List.map_congr_left fun i _ => ?_
    simp only [Function.comp_apply]
    rw [min_mul_absorb M (2 ^ i) (next * 2) (Nat.one_le_two_pow), pow_succ]
    ring_nf

/-- C5: the supervisor restart loop.  (a) A task failing immediately (all
run durations 0) sleeps `1, 2, 4, 8, ...` capped at `maxSleep = 300`
(top-level variant); (b) likewise capped at `60` for the worker variant;
(c) whenever a run lasted at least the 180-second reset window, the
following sleep is reset to 1 second (and the backoff state to the initial
sleep). -/
theorem c5_backoff :
    (∀ n, botRerunSleeps (List.replicate n 0) = (List.range n).map fun i => min 300 (2 ^ i))
    ∧ (∀ n, workerRerunSleeps (List.replicate n 0) = (List.range n).map fun i => min 60 (2 ^ i))
    ∧ ∀ (M next d : Nat) (durs : List Nat), 180 ≤ d →
        rerunSleeps M next (d :: durs) = 1 :: rerunSleeps M 1 durs := by
  refine ⟨fun n => ?_, fun n => ?_, fun M next d durs hd => ?_⟩
  · have h := rerunSleeps_zeros 300 n 1 (by omega)
    simpa [botRerunSleeps] using h
  · have h := rerunSleeps_zeros 60 n 1 (by omega)
    simpa [workerRerunSleeps] using h
  · simp [rerunSleeps, show ¬(d < 180) by omega]

/-- C5 witness: a run of 200 seconds resets the next sleep to 1 even from
backoff state 8; four immediate failures sleep `[1, 2, 4, 8]`. -/
theorem c5_backoff_witness :
    rerunSleeps 300 8 [200] = [1] ∧ botRerunSleeps (List.replicate 4 0) = [1, 2, 4, 8] := by
  constructor
  · exact c5_backoff.2.2 300 8 200 [] (by omega)
  · rw [c5_backoff.1 4]
    decide

/-! ## Claim C6 -/

/-- C6 counterexample: the legacy `Message.recipient` (message.py:79)
returns the RAW internal group id (`"G1"`), not the group's canonical
public id (`public_id("G1") = "group.RzE="`), for a parsed group message. -/
theorem c6_counterexample :
    MessageV1.recipient mV1group = .str "G1" ∧
    groupPublicId "G1" = "group.RzE=" ∧
    ("G1" : String) ≠ "group.RzE=" :=
  ⟨rfl, by decide, by decide⟩

/-- C6 amended: for the v2 `types.Message`, `recipient()` is the group's
canonical public id — `'group.' + base64(id)`, computed purely from the
message itself, no Directory — when the message is a group message, and
otherwise `user.uuid or user.number` (the sender's stable id or number);
the LEGACY `message.py` `Message.recipient` instead returns the raw
internal group id (see the counterexample). -/
theorem c6_recipient :
    (∀ (m : MessageM) (dm : DataMessageM) (gi : GroupInfoM),
        m.data = some dm → dm.group_info = some gi →
        m.is_group = true ∧
        MessageM.recipient m = some ("group." ++ String.mk (b64encode (strBytes gi.id))))
    ∧ ∀ (m : MessageM), m.is_group = false →
        MessageM.recipient m = pyOrStr m.user.uuid m.user.number := by
  constructor
  · intro m dm gi hdm hgi
    constructor
    · simp [MessageM.is_group, hdm, hgi]
    · simp [MessageM.recipient, hdm, hgi, groupPublicId, publicIdOfBytes]
  · intro m hg
    cases hdm : m.data with
    | none => simp [MessageM.recipient, hdm]
    | some dm =>
      have hgi : dm.group_info = none := by
        cases hgi : dm.group_info with
        | none => rfl
        | some gi => simp [MessageM.is_group, hdm, hgi] at hg
      simp [MessageM.recipient, hdm, hgi]

/-- C6 witness: a concrete v2 group message with group id `"G1"`. -/
theorem c6_recipient_witness :
    MessageM.is_group ⟨"s", ⟨none, none, some "u"⟩, 1, 5, none, none,
        some ⟨none, some "hi", 0, false, [], none, none, some ⟨"G1", none, 1, none⟩, [], none⟩,
        none, none, none⟩ = true ∧
    MessageM.recipient ⟨"s", ⟨none, none, some "u"⟩, 1, 5, none, none,
        some ⟨none, some "hi", 0, false, [], none, none, some ⟨"G1", none, 1, none⟩, [], none⟩,
        none, none, none⟩ = some ("group." ++ String.mk (b64encode (strBytes "G1"))) :=
  c6_recipient.1 _ _ _ rfl rfl

/-! ## Claim C7 -/

/-- C7 counterexample: parsing an envelope with a present non-numeric
numeric field (`"size": "x"` in an attachment) fails with a bare
`ValueError` — an unstructured exception distinct from the parser's only
structured error `UnknownMessageFormatError`; no `InvalidField` error
exists in the code. -/
theorem c7_counterexample :
    messageFromJson c7raw = .error .valueError ∧
    PyErr.valueError ≠ PyErr.unknownMessageFormat :=
  ⟨rfl, by decide⟩

/-- C7 amended: parsing an envelope with a present, truthy, non-numeric
string in a numeric attachment field DOES fail — but with an unstructured
`ValueError`, not with a structured `InvalidField` error naming the field
(no such error exists in the code; the parser's only structured error is
`UnknownMessageFormatError`, which does not cover this case).  Likewise
`_parse_group_info` raises a bare `ValueError` on `"revision": "x"`. -/
theorem c7_invalid_numeric :
    (∀ (d : List (String × J)) (s : String),
        jLookup d "size" = some (.str s) → s ≠ "" → pyIntDec s = none →
        parseAttachmentV1 (.obj d) = .error .valueError)
    ∧ parseGroupInfoV1 (.obj [("groupId", .str "G1"), ("revision", .str "x")]) =
        .error .valueError := by
  constructor
  · intro d s hlook hne hnum
    simp [parseAttachmentV1, parseAttachmentV1F, pyGet, hlook, jTruthy, hne, jToInt, hnum]
  · rfl

/-- C7 witness: the attachment `{"size": "x"}`. -/
theorem c7_invalid_numeric_witness :
    parseAttachmentV1 (.obj [("size", .str "x")]) = .error .valueError :=
  c7_invalid_numeric.1 [("size", .str "x")] "x" rfl (by decide) rfl

/-! ## Claim C8 -/

set_option maxHeartbeats 1000000 in
/-- C8 counterexample: the full Message round trip (validate, serialize,
re-validate) is NOT the identity.  The wire payload `w8` carries
`expiresInSeconds: 7`; `model_dump` emits the FIELD NAME
`expires_in_seconds`, which `DataMessage` validation (no
`populate_by_name`) ignores, so re-parsing gives the default `0`: the
re-parsed `Message` differs from the original. -/
theorem c8_counterexample :
    expiresOf (validateMessage w8) = .ok (some 7) ∧
    expiresOf ((validateMessage w8).bind fun m => validateMessage (.obj (dumpMessage m))) =
      .ok (some 0) ∧
    ((validateMessage w8).bind fun m => validateMessage (.obj (dumpMessage m))) ≠
      validateMessage w8 := by
  refine ⟨rfl, rfl, ?_⟩
  intro hcontra
  have h1 : expiresOf (validateMessage w8) = .ok (some 7) := rfl
  have h2 : expiresOf ((validateMessage w8).bind fun m =>
      validateMessage (.obj (dumpMessage m))) = .ok (some 0) := rfl
  rw [hcontra, h1] at h2
  simp at h2

/-- The gathered `user` dict holds exactly the original sibling values. -/
theorem collected_lookup (d : List (String × J)) :
    jLookup (userMapping.filterMap fun sr => (jLookup d sr.2).map fun v => (sr.1, v)) "name"
        = jLookup d "sourceName"
    ∧ jLookup (userMapping.filterMap fun sr => (jLookup d sr.2).map fun v => (sr.1, v)) "number"
        = jLookup d "sourceNumber"
    ∧ jLookup (userMapping.filterMap fun sr => (jLookup d sr.2).map fun v => (sr.1, v)) "uuid"
        = jLookup d "sourceUuid" := by
  rcases h1 : jLookup d "sourceName" with _ | v1 <;>
    rcases h2 : jLookup d "sourceNumber" with _ | v2 <;>
    rcases h3 : jLookup d "sourceUuid" with _ | v3 <;>
    simp [userMapping, jLookup, h1, h2, h3]

/-- The flattened raw keys hold exactly the values collected under the
sub-field names. -/
theorem tail_lookup_raws (coll : List (String × J)) :
    jLookup (userMapped coll) "sourceName" = jLookup coll "name"
    ∧ jLookup (userMapped coll) "sourceNumber" = jLookup coll "number"
    ∧ jLookup (userMapped coll) "sourceUuid" = jLookup coll "uuid" := by
  rcases h1 : jLookup coll "name" with _ | w1 <;>
    rcases h2 : jLookup coll "number" with _ | w2 <;>
    rcases h3 : jLookup coll "uuid" with _ | w3 <;>
    simp [userMapped, userMapping, jLookup, h1, h2, h3]

theorem tail_lookup_other (coll : List (String × J)) (k : String)
    (hk1 : k ≠ "sourceName") (hk2 : k ≠ "sourceNumber") (hk3 : k ≠ "sourceUuid") :
    jLookup (userMapped coll) k = none := by
  rcases h1 : jLookup coll "name" with _ | w1 <;>
    rcases h2 : jLookup coll "number" with _ | w2 <;>
    rcases h3 : jLookup coll "uuid" with _ | w3 <;>
    simp [userMapped, userMapping, jLookup, h1, h2, h3,
      Ne.symm hk1, Ne.symm hk2, Ne.symm hk3]

/-- If nothing was collected, none of the sibling keys was present. -/
theorem coll_empty_none (d : List (String × J))
    (hce : (userMapping.filterMap fun sr => (jLookup d sr.2).map fun v => (sr.1, v)).isEmpty = true) :
    jLookup d "sourceName" = none ∧ jLookup d "sourceNumber" = none
    ∧ jLookup d "sourceUuid" = none := by
  rcases h1 : jLookup d "sourceName" with _ | v1 <;>
    rcases h2 : jLookup d "sourceNumber" with _ | v2 <;>
    rcases h3 : jLookup d "sourceUuid" with _ | v3 <;>
    simp_all [userMapping, jLookup]

/-- C8 amended: the gather and flatten operations themselves ARE mutually
inverse at the dict level: for every wire object without a `user` key,
flattening the gathered `user` field back to the sibling keys yields a
dict with exactly the original bindings (Python dict equality, i.e.
key-wise lookup equality).  The FULL `Message`-level round trip fails
(see the counterexample) because the serializer emits field names that
nested-model validation does not accept. -/
theorem c8_gather_flatten_inverse :
    ∀ (d : List (String × J)) (k : String),
      jLookup d "user" = none →
      jLookup (flattenMapped (extractMapped d "user" userMapping) "user" userMapping) k
        = jLookup d k := by
  intro d k h
  have hext : extractMapped d "user" userMapping =
      if (userMapping.filterMap fun sr => (jLookup d sr.2).map fun v => (sr.1, v)).isEmpty then
        d.filter fun kv => !(userMapping.any fun sr => sr.2 = kv.1)
      else
        setKey (d.filter fun kv => !(userMapping.any fun sr => sr.2 = kv.1)) "user"
          (.obj (userMapping.filterMap fun sr => (jLookup d sr.2).map fun v => (sr.1, v))) := rfl
  have hall : ∀ kv ∈ d.filter fun kv => !(userMapping.any fun sr => sr.2 = kv.1),
      kv.1 ≠ "user" := fun kv hkv =>
    ((jLookup_eq_none_iff d "user").mp h) kv (List.mem_of_mem_filter hkv)
  have hflatF := flattenMapped_no_field _ "user" userMapping hall
  have hFuser : jLookup (d.filter fun kv => !(userMapping.any fun sr => sr.2 = kv.1)) "user"
      = none := jLookup_filter_none h _
  have hset : setKey (d.filter fun kv => !(userMapping.any fun sr => sr.2 = kv.1)) "user"
        (.obj (userMapping.filterMap fun sr => (jLookup d sr.2).map fun v => (sr.1, v)))
      = (d.filter fun kv => !(userMapping.any fun sr => sr.2 = kv.1)) ++
        [("user", .obj (userMapping.filterMap fun sr => (jLookup d sr.2).map fun v => (sr.1, v)))] := by
    rw [setKey, if_neg (by simp [hFuser])]
  have hT : flattenMapped
        [("user", .obj (userMapping.filterMap fun sr => (jLookup d sr.2).map fun v => (sr.1, v)))]
        "user" userMapping
      = userMapped (userMapping.filterMap fun sr => (jLookup d sr.2).map fun v => (sr.1, v)) := by
    simp [flattenMapped, userMapped]
  by_cases hk1 : k = "sourceName"
  · subst hk1
    have hFk : jLookup (d.filter fun kv => !(userMapping.any fun sr => sr.2 = kv.1)) "sourceName"
        = none := jLookup_filter_drop _ (by simp [userMapping])
    by_cases hce : (userMapping.filterMap fun sr => (jLookup d sr.2).map fun v => (sr.1, v)).isEmpty
    · rw [hext, if_pos hce, hflatF, hFk, (coll_empty_none d hce).1]
    · rw [hext, if_neg hce, hset, flattenMapped_append, hflatF, hT, jLookup_append, hFk,
        (tail_lookup_raws _).1, (collected_lookup d).1]
      rfl
  · by_cases hk2 : k = "sourceNumber"
    · subst hk2
      have hFk : jLookup (d.filter fun kv => !(userMapping.any fun sr => sr.2 = kv.1)) "sourceNumber"
          = none := jLookup_filter_drop _ (by simp [userMapping])
      by_cases hce : (userMapping.filterMap fun sr => (jLookup d sr.2).map fun v => (sr.1, v)).isEmpty
      · rw [hext, if_pos hce, hflatF, hFk, (coll_empty_none d hce).2.1]
      · rw [hext, if_neg hce, hset, flattenMapped_append, hflatF, hT, jLookup_append, hFk,
          (tail_lookup_raws _).2.1, (collected_lookup d).2.1]
        rfl
    · by_cases hk3 : k = "sourceUuid"
      · subst hk3
        have hFk : jLookup (d.filter fun kv => !(userMapping.any fun sr => sr.2 = kv.1)) "sourceUuid"
            = none := jLookup_filter_drop _ (by simp [userMapping])
        by_cases hce : (userMapping.filterMap fun sr => (jLookup d sr.2).map fun v => (sr.1, v)).isEmpty
        · rw [hext, if_pos hce, hflatF, hFk, (coll_empty_none d hce).2.2]
        · rw [hext, if_neg hce, hset, flattenMapped_append, hflatF, hT, jLookup_append, hFk,
            (tail_lookup_raws _).2.2, (collected_lookup d).2.2]
          rfl
      · have hFk : jLookup (d.filter fun kv => !(userMapping.any fun sr => sr.2 = kv.1)) k
            = jLookup d k := jLookup_filter_keep _ (by
              intro v
              simp [userMapping, Ne.symm hk1, Ne.symm hk2, Ne.symm hk3])
        by_cases hce : (userMapping.filterMap fun sr => (jLookup d sr.2).map fun v => (sr.1, v)).isEmpty
        · rw [hext, if_pos hce, hflatF, hFk]
        · rw [hext, if_neg hce, hset, flattenMapped_append, hflatF, hT, jLookup_append, hFk,
            tail_lookup_other _ k hk1 hk2 hk3]
          cases hdk : jLookup d k <;> rfl

/-- C8 witness: a concrete wire dict. -/
theorem c8_gather_flatten_inverse_witness :
    jLookup (flattenMapped (extractMapped
        [("sourceUuid", .str "u"), ("timestamp", .num 5)] "user" userMapping)
      "user" userMapping) "sourceUuid"
      = jLookup [("sourceUuid", .str "u"), ("timestamp", .num 5)] "sourceUuid" :=
  c8_gather_flatten_inverse [("sourceUuid", .str "u"), ("timestamp", .num 5)] "sourceUuid" rfl

/-! ## Claim C9 -/

theorem startsWithChars_mem :
    ∀ (pat l : List Char), startsWithChars pat l = true → ∀ x ∈ pat, x ∈ l := by
  intro pat
  induction pat with
  | nil => simp
  | cons p ps ih =>
    intro l h x hx
    cases l with
    | nil => simp [startsWithChars] at h
    | cons c cs =>
      simp only [startsWithChars, Bool.and_eq_true, decide_eq_true_eq] at h
      obtain ⟨hpc, hrest⟩ := h
      rcases List.mem_cons.mp hx with rfl | hx2
      · subst hpc
        exact List.mem_cons_self _ _
      · exact List.mem_cons_of_mem _ (ih cs hrest x hx2)

theorem removeAllFuel_no_char {x : Char} {pat : List Char} (hx : x ∈ pat) :
    ∀ (fuel : Nat) (l : List Char), (∀ c ∈ l, c ≠ x) → removeAllFuel pat fuel l = l := by
  intro fuel
  induction fuel with
  | zero => intro l _; rfl
  | succ f ih =>
    intro l hl
    cases l with
    | nil => rfl
    | cons c cs =>
      have hsw : startsWithChars pat (c :: cs) = false := by
        cases hsw : startsWithChars pat (c :: cs)
        · rfl
        · exact absurd rfl (hl x (startsWithChars_mem pat _ hsw x hx))
      rw [removeAllFuel, if_neg (by simp [hsw])]
      rw [ih cs fun ch hch => hl ch (List.mem_cons_of_mem _ hch)]

theorem removeAll_no_char {x : Char} {pat : List Char} (hx : x ∈ pat)
    (l : List Char) (hl : ∀ c ∈ l, c ≠ x) : removeAll pat l = l :=
  removeAllFuel_no_char hx l.length l hl

theorem dropWhile_no {p : Char → Bool} {l : List Char}
    (h : ∀ c ∈ l, p c = false) : l.dropWhile p = l := by
  cases l with
  | nil => rfl
  | cons c cs => simp [List.dropWhile, h c (List.mem_cons_self _ _)]

theorem stripEnds_no {p : Char → Bool} {l : List Char}
    (h : ∀ c ∈ l, p c = false) : stripEnds p l = l := by
  unfold stripEnds
  rw [dropWhile_no h, dropWhile_no fun c hc => h c (List.mem_reverse.mp hc),
    List.reverse_reverse]

theorem splitOnChar_no_sep {sep : Char} {l : List Char}
    (h : ∀ c ∈ l, c ≠ sep) : splitOnChar sep l = [l] := by
  induction l with
  | nil => rfl
  | cons c cs ih =>
    rw [splitOnChar, ih fun ch hch => h ch (List.mem_cons_of_mem _ hch)]
    simp [h c (List.mem_cons_self _ _)]

theorem splitOnChar_app {sep : Char} (l1 l2 : List Char)
    (h : ∀ c ∈ l1, c ≠ sep) :
    splitOnChar sep (l1 ++ sep :: l2) = l1 :: splitOnChar sep l2 := by
  induction l1 with
  | nil => simp [splitOnChar]
  | cons c cs ih =>
    rw [List.cons_append, splitOnChar, ih fun ch hch => h ch (List.mem_cons_of_mem _ hch)]
    simp [h c (List.mem_cons_self _ _)]

theorem char_toNat_lt (c : Char) : c.toNat < 1114112 := by
  have h : c.val.toNat < 55296 ∨ (57344 ≤ c.val.toNat ∧ c.val.toNat < 1114112) := c.valid
  rcases h with h | ⟨_, h⟩ <;> (show c.val.toNat < 1114112; omega)

theorem charUtf8_lt (c : Char) : ∀ x ∈ charUtf8 c, x < 256 := by
  have hv : c.toNat < 1114112 := char_toNat_lt c
  intro x hx
  simp only [charUtf8] at hx
  split_ifs at hx with h1 h2 h3
  · simp at hx; omega
  · simp at hx; rcases hx with rfl | rfl <;> omega
  · simp at hx; rcases hx with rfl | rfl | rfl <;> omega
  · simp at hx; rcases hx with rfl | rfl | rfl | rfl <;> omega

theorem strBytes_lt (s : String) : ∀ x ∈ strBytes s, x < 256 := by
  intro x hx
  simp only [strBytes, List.mem_flatten, List.mem_map] at hx
  obtain ⟨l, ⟨c, _, rfl⟩, hxl⟩ := hx
  exact charUtf8_lt c x hxl

theorem b64Char_cases (n : Nat) :
    b64Char n = '+' ∨ b64Char n = '/' ∨ isAlnumAscii (b64Char n) = true := by
  by_cases h : n < 64
  · have hall : ∀ m, m < 64 →
        (b64Char m = '+' ∨ b64Char m = '/' ∨ isAlnumAscii (b64Char m) = true) := by decide
    exact hall n h
  · right; left
    simp [b64Char, show ¬(n < 26) by omega, show ¬(n < 52) by omega,
      show ¬(n < 62) by omega, show ¬(n = 62) by omega]

/-- Structure of base64 of a byte list of length ≡ 2 (mod 3): a body of
alphabet characters followed by exactly one `=`. -/
theorem b64_shape :
    ∀ (l : List Nat), l.length % 3 = 2 → (∀ x ∈ l, x < 256) →
      ∃ cs, b64encode l = cs ++ ['='] ∧ cs.length = l.length / 3 * 4 + 3 ∧
        ∀ c ∈ cs, ∃ n, n < 64 ∧ c = b64Char n
  | [] => by simp
  | [a] => by simp
  | [a, b] => by
    intro _ hlt
    have ha := hlt a (by simp)
    have hb := hlt b (by simp)
    refine ⟨[b64Char (a / 4), b64Char (a % 4 * 16 + b / 16), b64Char (b % 16 * 4)],
      rfl, by simp, ?_⟩
    intro c hc
    simp only [List.mem_cons, List.not_mem_nil, or_false] at hc
    rcases hc with rfl | rfl | rfl
    · exact ⟨a / 4, by omega, rfl⟩
    · exact ⟨a % 4 * 16 + b / 16, by omega, rfl⟩
    · exact ⟨b % 16 * 4, by omega, rfl⟩
  | a :: b :: c :: rest => by
    intro hmod hlt
    have hmod2 : rest.length % 3 = 2 := by
      simp only [List.length_cons] at hmod
      omega
    obtain ⟨cs, h1, h2, h3⟩ :=
      b64_shape rest hmod2 fun x hx => hlt x (by simp [hx])
    have ha := hlt a (by simp)
    have hb := hlt b (by simp)
    have hc := hlt c (by simp)
    refine ⟨b64Char (a / 4) :: b64Char (a % 4 * 16 + b / 16) ::
      b64Char (b % 16 * 4 + c / 64) :: b64Char (c % 64) :: cs, ?_, ?_, ?_⟩
    · simp [b64encode, h1]
    · simp only [List.length_cons, h2]
      omega
    · intro ch hch
      simp only [List.mem_cons] at hch
      rcases hch with rfl | rfl | rfl | rfl | hch
      · exact ⟨a / 4, by omega, rfl⟩
      · exact ⟨a % 4 * 16 + b / 16, by omega, rfl⟩
      · exact ⟨b % 16 * 4 + c / 64, by omega, rfl⟩
      · exact ⟨c % 64, by omega, rfl⟩
      · exact h3 ch hch

/-- C9 counterexample: for the non-empty group id `"G1"`, the derived
public id `"group.RzE="` does NOT satisfy the group-public-id shape check
(its body is 3 characters, not 59), and resolving it against an empty
directory raises `SignalBotError` instead of returning it unchanged. -/
theorem c9_counterexample :
    isGroupId (groupPublicId "G1") = false ∧
    resolveReceiver emptyDir (groupPublicId "G1") = .error .signalBotError :=
  ⟨by decide, rfl⟩

/-- C9 amended: `public_id()` passes the group-public-id shape check and is
resolved to itself without any Directory lookup — not for EVERY non-empty
id (see the counterexample), but exactly when the encoding fits the
66-character shape the check demands: a 44-byte id whose base64 encoding
contains neither `+` nor `/` (the body is then 59 alphanumeric characters
plus the `=` suffix). -/
theorem c9_public_id_shape :
    ∀ (gi : GroupInfoM) (dir : Directory),
      (strBytes gi.id).length = 44 →
      (∀ ch ∈ b64encode (strBytes gi.id), ch ≠ '+' ∧ ch ≠ '/') →
      isGroupId (groupPublicId gi.id) = true ∧
      resolveReceiver dir (groupPublicId gi.id) = .ok (groupPublicId gi.id) := by
  intro gi dir h44 hpm
  obtain ⟨cs, hb64, hlen, hmem⟩ := b64_shape (strBytes gi.id) (by rw [h44]) (strBytes_lt _)
  have hlen59 : cs.length = 59 := by rw [hlen, h44]
  have halnum : ∀ ch ∈ cs, isAlnumAscii ch = true := by
    intro ch hch
    obtain ⟨n, -, rfl⟩ := hmem ch hch
    have hmem2 : b64Char n ∈ b64encode (strBytes gi.id) := by
      rw [hb64]
      exact List.mem_append_left _ hch
    rcases b64Char_cases n with hpc | hpc | hpc
    · exact absurd hpc (hpm _ hmem2).1
    · exact absurd hpc (hpm _ hmem2).2
    · exact hpc
  have hdata : (groupPublicId gi.id).data =
      'g' :: 'r' :: 'o' :: 'u' :: 'p' :: '.' :: (cs ++ ['=']) := by
    simp only [groupPublicId, publicIdOfBytes, String.data_append, hb64]
    rfl
  have hchars : ∀ ch ∈ (groupPublicId gi.id).data,
      ch ≠ ':' ∧ isBrace ch = false ∧ ch ≠ '-' := by
    rw [hdata]
    intro ch hch
    simp only [List.mem_cons, List.mem_append, List.not_mem_nil, or_false] at hch
    rcases hch with rfl | rfl | rfl | rfl | rfl | rfl | hcs | rfl
    · exact ⟨by decide, by decide, by decide⟩
    · exact ⟨by decide, by decide, by decide⟩
    · exact ⟨by decide, by decide, by decide⟩
    · exact ⟨by decide, by decide, by decide⟩
    · exact ⟨by decide, by decide, by decide⟩
    · exact ⟨by decide, by decide, by decide⟩
    · have ha := halnum ch hcs
      refine ⟨ne_of_pred ha (by decide), ?_, ne_of_pred ha (by decide)⟩
      have h1 := ne_of_pred ha (show isAlnumAscii '\x7b' = false by decide)
      have h2 := ne_of_pred ha (show isAlnumAscii '\x7d' = false by decide)
      simp [isBrace, h1, h2]
    · exact ⟨by decide, by decide, by decide⟩
  have hgid : isGroupId (groupPublicId gi.id) = true := by
    simp only [isGroupId, hdata, ← hlen59, List.take_left, List.drop_left]
    simp [List.all_eq_true]
    exact halnum
  have hphone : isPhoneNumber (groupPublicId gi.id) = .ok false := by
    simp [isPhoneNumber, hdata]
  have huuid : isValidUuid (groupPublicId gi.id) = false := by
    simp only [isValidUuid]
    rw [removeAll_no_char (show ':' ∈ "urn:".data by decide) _
        fun c hc => (hchars c hc).1,
      removeAll_no_char (show ':' ∈ "uuid:".data by decide) _
        fun c hc => (hchars c hc).1,
      stripEnds_no fun c hc => (hchars c hc).2.1,
      List.filter_eq_self.mpr fun c hc => by simpa using (hchars c hc).2.2]
    rw [hdata]
    simp [hlen59]
  have husr : isUsername (groupPublicId gi.id) = false := by
    unfold isUsername
    rw [hdata, show ('g' :: 'r' :: 'o' :: 'u' :: 'p' :: '.' :: (cs ++ ['='])) =
        ['g', 'r', 'o', 'u', 'p'] ++ '.' :: (cs ++ ['=']) from rfl]
    rw [splitOnChar_app _ _ (by decide)]
    rw [splitOnChar_no_sep (l := cs ++ ['=']) ?hns]
    case hns =>
      intro c hc
      rcases List.mem_append.mp hc with hcs | hceq
      · exact ne_of_pred (halnum c hcs) (by decide)
      · simp only [List.mem_singleton] at hceq
        subst hceq
        decide
    simp [hlen59]
  refine ⟨hgid, ?_⟩
  simp [resolveReceiver, hphone, huuid, husr, hgid]

/-- C9 witness: the 44-byte id `idA` (44 times `A`). -/
theorem c9_public_id_shape_witness :
    isGroupId (groupPublicId idA) = true ∧
    resolveReceiver emptyDir (groupPublicId idA) = .ok (groupPublicId idA) :=
  c9_public_id_shape ⟨idA, none, 1, none⟩ emptyDir (by decide) (by decide)

/-! ## Claim C10 -/

/-- C10 counterexample: resolving the empty string raises `IndexError`
(from `phone_number[0]` in `_is_phone_number`), not the designated
`SignalBotError`, so resolution is not total over the two claimed
outcomes. -/
theorem c10_counterexample : resolveReceiver emptyDir "" = .error .indexError := rfl

/-- C10 amended: for every NON-EMPTY input string and every directory
state, receiver resolution is total over the two designated outcomes: it
returns a canonical address or raises `SignalBotError` ("Cannot resolve
receiver."); only the empty string escapes with `IndexError` (see the
counterexample). -/
theorem c10_total_resolution :
    ∀ (dir : Directory) (s : String), s ≠ "" →
      (∃ out, resolveReceiver dir s = .ok out) ∨
        resolveReceiver dir s = .error .signalBotError := by
  intro dir s hs
  cases hd : s.data with
  | nil => exact absurd (String.ext (by simp [hd])) hs
  | cons c cs =>
    obtain ⟨b, hb⟩ := isPhone_shape s c cs hd
    cases b with
    | true =>
      left
      exact ⟨s, by simp [resolveReceiver, hb]⟩
    | false =>
      cases hu : isValidUuid s <;> cases hn : isUsername s <;> cases hg : isGroupId s <;>
        rcases hint : alookup dir.byInternalId s with _ | g <;>
        rcases hname : getGroupByName dir s with _ | g2 <;>
        simp [resolveReceiver, hb, hu, hn, hg, hint, hname]

/-- C10 witness: at the concrete non-empty input `"x"` and the empty
directory. -/
theorem c10_total_resolution_witness :
    (∃ out, resolveReceiver emptyDir "x" = .ok out) ∨
      resolveReceiver emptyDir "x" = .error .signalBotError :=
  c10_total_resolution emptyDir "x" (by decide)

end Signalbot
